import Mathlib

/-!
Verification of the Infra-AI alert-to-remediation core.

A shallow embedding, in Lean 4, of the core logic of the Infra-AI backend:

* the Python value model (`PyObj`) used by all embedded functions, with
  Python-style truthiness, equality, `str()` and dictionary operations;
* `is_server_error` (backend/app/core/engine.py);
* the alert evaluator `evaluate_alert` with `_match_condition` and
  `_interpolate_params` (backend/app/core/self_healing.py);
* a store-based model of the action-construction block of `evaluate_alert`
  (for object-identity / copy-depth questions);
* `json.dumps` / `json.loads` as used by the engine and worker;
* the remediation worker `process_task` / `worker_loop` (backend/app/worker.py);
* the `verification_node` tool-call extraction (engine.py) with its regex
  patterns;
* the command router `route_infra_command` (engine.py) over an abstract
  backend oracle.

Functions keep the names of their Python sources where Lean allows it.
Theorems at the end settle the behavioural properties of these functions.
-/

set_option maxHeartbeats 1000000
set_option maxRecDepth 8000

/-! ## Python value model -/

/-- A Python value, as used by the embedded code: `None`, booleans, integers,
strings, lists, and string-keyed dictionaries (association lists in insertion
order, unique keys). Floats do not occur in the embedded logic. -/
inductive PyObj where
  | none
  | bool (b : Bool)
  | int (n : Int)
  | str (s : String)
  | list (xs : List PyObj)
  | dict (xs : List (String × PyObj))
deriving Repr

/-- A Python dictionary body: string keys in insertion order. -/
abbrev PyDict := List (String × PyObj)

/-- First value bound to key `k` (Python `d[k]` / `d.get(k)` on unique keys). -/
def dlookup (d : PyDict) (k : String) : Option PyObj :=
  match d with
  | [] => Option.none
  | (k', v) :: rest => if k' == k then some v else dlookup rest k

/-- Python `d.get(k, dflt)`. -/
def dgetD (d : PyDict) (k : String) (dflt : PyObj) : PyObj :=
  (dlookup d k).getD dflt

/-- Python `k in d`. -/
def dmem (d : PyDict) (k : String) : Bool :=
  (dlookup d k).isSome

/-- Python `d[k] = v`: replace in place if present, else append. -/
def dset (d : PyDict) (k : String) (v : PyObj) : PyDict :=
  match d with
  | [] => [(k, v)]
  | (k', v') :: rest => if k' == k then (k', v) :: rest else (k', v') :: dset rest k v

/-- Python truthiness (`bool(x)`). -/
def pyTruthy : PyObj → Bool
  | .none => false
  | .bool b => b
  | .int n => n != 0
  | .str s => !s.data.isEmpty
  | .list xs => !xs.isEmpty
  | .dict xs => !xs.isEmpty

mutual
/-- Python `==` on the modelled values (`True == 1`, dicts compare as
unordered mappings with unique keys, lists elementwise). -/
def pyEq : PyObj → PyObj → Bool
  | .none, .none => true
  | .bool a, .bool b => a == b
  | .bool a, .int n => (if a then (1 : Int) else 0) == n
  | .int n, .bool a => n == (if a then (1 : Int) else 0)
  | .int a, .int b => a == b
  | .str a, .str b => a == b
  | .list a, .list b => pyEqList a b
  | .dict a, .dict b => a.length == b.length && pyEqDict a b
  | _, _ => false
def pyEqList : List PyObj → List PyObj → Bool
  | [], [] => true
  | a :: as', b :: bs => pyEq a b && pyEqList as' bs
  | _, _ => false
def pyEqDict : PyDict → PyDict → Bool
  | [], _ => true
  | (k, v) :: rest, b =>
    (match dlookup b k with
     | some w => pyEq v w
     | Option.none => false) && pyEqDict rest b
end

mutual
/-- Python `repr()` for the modelled values. -/
def pyRepr : PyObj → String
  | .none => "None"
  | .bool b => if b then "True" else "False"
  | .int n => toString n
  | .str s => "\x27" ++ s ++ "\x27"
  | .list xs => "[" ++ pyReprList xs ++ "]"
  | .dict xs => "\x7b" ++ pyReprDict xs ++ "\x7d"
def pyReprList : List PyObj → String
  | [] => ""
  | [x] => pyRepr x
  | x :: xs => pyRepr x ++ ", " ++ pyReprList xs
def pyReprDict : PyDict → String
  | [] => ""
  | [(k, v)] => "\x27" ++ k ++ "\x27: " ++ pyRepr v
  | (k, v) :: xs => "\x27" ++ k ++ "\x27: " ++ pyRepr v ++ ", " ++ pyReprDict xs
end

/-- Python `str()`: like `repr()` except on strings, where it is the identity. -/
def pyStr : PyObj → String
  | .str s => s
  | x => pyRepr x

/-- `needle` occurs as a contiguous run inside the character list. -/
def containsRun (needle : List Char) : List Char → Bool
  | [] => needle.isEmpty
  | c :: rest => needle.isPrefixOf (c :: rest) || containsRun needle rest

/-- Python `needle in hay` on strings: contiguous substring. -/
def strContains (hay needle : String) : Bool :=
  containsRun needle.toList hay.toList

/-- Python `str.lower()` on the ASCII strings this code handles. -/
def lowerStr (s : String) : String := String.mk (s.data.map Char.toLower)

/-! ## `is_server_error` (engine.py lines 113-130) -/

/-- `is_server_error(response)`: true iff `response` is a dict whose
`status` is `"error"` and whose (truthy) `error` text, lowercased, contains
one of the hard-coded unavailability markers. -/
def is_server_error (response : PyObj) : Bool :=
  match response with
  | .dict d =>
    let error_field := dgetD d "error" (.str "")
    let error_msg := if pyTruthy error_field then lowerStr (pyStr error_field) else ""
    pyEq (dgetD d "status" .none) (.str "error")
      && (strContains error_msg "connection"
        || strContains error_msg "server not accessible"
        || strContains error_msg "failed to initialize"
        || strContains error_msg "all connection attempts failed"
        || strContains error_msg "http"
        || strContains error_msg "404"
        || strContains error_msg "503")
  | _ => false

/-- The fixed marker substrings of `is_server_error`, as the specification
lists them. -/
def serverErrorNeedles : List String :=
  ["connection", "server not accessible", "failed to initialize",
   "all connection attempts failed", "http", "404", "503"]

/-- `x` is a dictionary. -/
def PyObj.isDict : PyObj → Bool
  | .dict _ => true
  | _ => false

/-! ## Basic lemmas about the value model -/

theorem pyEq_str_right (x : PyObj) (s : String) : pyEq x (.str s) = true ↔ x = .str s := by
  cases x <;> simp [pyEq]

theorem pyEq_status_lookup (d : PyDict) (s : String) :
    pyEq (dgetD d "status" .none) (.str s) = true ↔ dlookup d "status" = some (.str s) := by
  cases h : dlookup d "status" with
  | none => simp [dgetD, h, pyEq]
  | some v => simp [dgetD, h, pyEq_str_right]

/-! ## Theorems for `is_server_error` -/

theorem needle_or_chain (m : String) :
    (strContains m "connection"
        || strContains m "server not accessible"
        || strContains m "failed to initialize"
        || strContains m "all connection attempts failed"
        || strContains m "http"
        || strContains m "404"
        || strContains m "503") = true
      ↔ ∃ n ∈ serverErrorNeedles, strContains m n = true := by
  simp only [Bool.or_eq_true, serverErrorNeedles, List.mem_cons, List.not_mem_nil, or_false,
    exists_eq_or_imp, exists_eq_left]
  constructor
  · rintro (((((((h | h) | h) | h) | h) | h) | h)) <;>
      first
        | exact Or.inl h
        | exact Or.inr (Or.inl h)
        | exact Or.inr (Or.inr (Or.inl h))
        | exact Or.inr (Or.inr (Or.inr (Or.inl h)))
        | exact Or.inr (Or.inr (Or.inr (Or.inr (Or.inl h))))
        | exact Or.inr (Or.inr (Or.inr (Or.inr (Or.inr (Or.inl h)))))
        | exact Or.inr (Or.inr (Or.inr (Or.inr (Or.inr (Or.inr h)))))
  · rintro (h | h | h | h | h | h | h) <;>
      first
        | exact Or.inl (Or.inl (Or.inl (Or.inl (Or.inl (Or.inl h)))))
        | exact Or.inl (Or.inl (Or.inl (Or.inl (Or.inl (Or.inr h)))))
        | exact Or.inl (Or.inl (Or.inl (Or.inl (Or.inr h))))
        | exact Or.inl (Or.inl (Or.inl (Or.inr h)))
        | exact Or.inl (Or.inl (Or.inr h))
        | exact Or.inl (Or.inr h)
        | exact Or.inr h

/-- C3: `is_server_error` classifies a response as a server-unavailability
error exactly when its `status` field equals `"error"` and its error text
(case-insensitively) contains one of the fixed marker substrings; in
particular `{status:"error", error:"connection refused"}` is classified and
`{status:"error", error:"invalid argument"}` is not. -/
theorem is_server_error_spec :
    (∀ (d : PyDict) (e : String),
        dlookup d "error" = some (.str e) →
        (is_server_error (.dict d) = true ↔
          dlookup d "status" = some (.str "error") ∧
            ∃ n ∈ serverErrorNeedles, strContains (lowerStr e) n = true))
    ∧ is_server_error
        (.dict [("status", .str "error"), ("error", .str "connection refused")]) = true
    ∧ is_server_error
        (.dict [("status", .str "error"), ("error", .str "invalid argument")]) = false := by
  refine ⟨?_, by decide, by decide⟩
  intro d e he
  have herr : dgetD d "error" (.str "") = .str e := by simp [dgetD, he]
  obtain ⟨data⟩ := e
  cases data with
  | nil =>
    have hnone : ∀ n ∈ serverErrorNeedles, strContains (lowerStr (String.mk [])) n = false := by
      decide
    simp only [is_server_error, herr, pyTruthy, List.isEmpty_nil, Bool.not_true,
      Bool.false_eq_true, not_false_eq_true, if_neg]
    constructor
    · intro h
      rw [Bool.and_eq_true] at h
      exact absurd h.2 (by decide)
    · rintro ⟨-, n, hn, h⟩
      rw [hnone n hn] at h
      exact absurd h (by decide)
  | cons c cs =>
    simp only [is_server_error, herr, pyTruthy, List.isEmpty_cons, Bool.not_false, if_pos,
      pyStr]
    rw [Bool.and_eq_true, pyEq_status_lookup, needle_or_chain]

/-- Witness for C3's universally quantified part, at the spec's own example. -/
theorem is_server_error_spec_witness :
    is_server_error
      (.dict [("status", .str "error"), ("error", .str "connection refused")]) = true :=
  (is_server_error_spec.1 [("status", .str "error"), ("error", .str "connection refused")]
      "connection refused" rfl).mpr
    ⟨rfl, "connection", by simp [serverErrorNeedles], by decide⟩

/-- C10: `is_server_error` is `false` on every non-dictionary input and on
every dictionary whose `error` field is absent, `None`, or empty — even when
`status` is `"error"` — and whenever it is `true` the response carries a
truthy `error` field. -/
theorem is_server_error_requires_error_text :
    (∀ x : PyObj, x.isDict = false → is_server_error x = false)
    ∧ (∀ d : PyDict,
        (dlookup d "error" = Option.none ∨ dlookup d "error" = some .none ∨
          dlookup d "error" = some (.str "")) →
        is_server_error (.dict d) = false)
    ∧ (∀ x : PyObj, is_server_error x = true →
        ∃ d v, x = .dict d ∧ dlookup d "error" = some v ∧ pyTruthy v = true) := by
  have hfalse : ∀ d : PyDict, pyTruthy (dgetD d "error" (.str "")) = false →
      is_server_error (.dict d) = false := by
    intro d hd
    simp only [is_server_error, hd, Bool.false_eq_true, not_false_eq_true, if_neg]
    have : ∀ n ∈ serverErrorNeedles, strContains "" n = false := by decide
    simp only [serverErrorNeedles, List.mem_cons, List.not_mem_nil, or_false,
      forall_eq_or_imp, forall_eq] at this
    obtain ⟨h1, h2, h3, h4, h5, h6, h7⟩ := this
    rw [h1, h2, h3, h4, h5, h6, h7]
    simp
  refine ⟨?_, ?_, ?_⟩
  · intro x hx
    cases x <;> simp_all [PyObj.isDict, is_server_error]
  · intro d hd
    apply hfalse
    rcases hd with h | h | h <;> simp [dgetD, h, pyTruthy]
  · intro x hx
    cases x with
    | dict d =>
      refine ⟨d, ?_⟩
      cases h : dlookup d "error" with
      | none =>
        exfalso
        have : is_server_error (.dict d) = false := by
          apply hfalse; simp [dgetD, h, pyTruthy]
        rw [this] at hx; exact Bool.false_ne_true hx
      | some v =>
        refine ⟨v, rfl, rfl, ?_⟩
        by_contra hv
        have hv' : pyTruthy v = false := by
          cases hvb : pyTruthy v
          · rfl
          · exact absurd hvb hv
        have : is_server_error (.dict d) = false := by
          apply hfalse; simp [dgetD, h, hv']
        rw [this] at hx; exact Bool.false_ne_true hx
    | none => simp [is_server_error] at hx
    | bool b => simp [is_server_error] at hx
    | int n => simp [is_server_error] at hx
    | str s => simp [is_server_error] at hx
    | list xs => simp [is_server_error] at hx

/-- Witness for C10: a non-dict input, a dict with `error: ""` despite
`status:"error"`, and the truthy-error consequence at a concrete classified
response. -/
theorem is_server_error_requires_error_text_witness :
    is_server_error (.str "error") = false
    ∧ is_server_error (.dict [("status", .str "error"), ("error", .str "")]) = false
    ∧ ∃ d v, (PyObj.dict [("status", .str "error"), ("error", .str "http 503")]) = .dict d
        ∧ dlookup d "error" = some v ∧ pyTruthy v = true :=
  ⟨is_server_error_requires_error_text.1 (.str "error") (by decide),
   is_server_error_requires_error_text.2.1 [("status", .str "error"), ("error", .str "")]
     (Or.inr (Or.inr rfl)),
   is_server_error_requires_error_text.2.2
     (.dict [("status", .str "error"), ("error", .str "http 503")]) (by decide)⟩

/-! ## Alert evaluator (backend/app/core/self_healing.py)

`evaluate_alert` receives the webhook payload and the policy list returned by
`get_all_policies` (db.py lines 78-95), which the database serves sorted
ascending by `priority`; here that list is an explicit parameter. Paths on
which the Python code would raise (`.get`/`.items()` on non-dictionaries)
return `.error`. -/

/-- A policy row as `db.get_all_policies` returns it. -/
structure Policy where
  name : String
  condition : PyDict
  action : PyDict
  priority : Int

/-- The fields of the `PrometheusAlert` webhook model used by the evaluator. -/
structure PrometheusAlert where
  status : String
  alerts : List PyObj

/-- `d.get(k)` where the key is itself a Python value (string-keyed dict, so a
non-string key is absent). -/
def pyDictGetKey (d : PyDict) (k : PyObj) : PyObj :=
  match k with
  | .str s => dgetD d s .none
  | _ => .none

/-- `_match_condition(condition, labels, annotations, status)`: the four
condition formats, first applicable wins; `annotations.get` on a non-dict
raises (only reached when the label lookup was falsy, per `or`
short-circuiting). -/
def _match_condition (condition : PyDict) (labels : PyDict) (annotations : PyObj)
    (status : String) : Except String Bool :=
  if dmem condition "label" && dmem condition "value" then
    let label_key := dgetD condition "label" .none
    let expected_value := dgetD condition "value" .none
    let lv := pyDictGetKey labels label_key
    if pyTruthy lv then .ok (pyEq lv expected_value)
    else
      match annotations with
      | .dict a => .ok (pyEq (pyDictGetKey a label_key) expected_value)
      | _ => .error "AttributeError: annotations has no attribute get"
  else if dmem condition "labels" then
    match dgetD condition "labels" .none with
    | .dict cl => .ok (cl.all fun kv => pyEq (dgetD labels kv.1 .none) kv.2)
    | _ => .error "AttributeError: condition labels has no attribute items"
  else if dmem condition "status" then
    .ok (pyEq (.str status) (dgetD condition "status" .none))
  else if dmem condition "expression" then
    .ok false
  else
    .ok false

/-- Characters of `cs` after the first occurrence of `pat`
(`cs.split(pat)[1]`, still running to the end of the string). -/
def afterFirst (pat : List Char) : List Char → Option (List Char)
  | [] => if pat.isEmpty then some [] else Option.none
  | c :: rest =>
    if pat.isPrefixOf (c :: rest) then some ((c :: rest).drop pat.length)
    else afterFirst pat rest

/-- Characters before the next occurrence of `pat` (end of `split(pat)[1]`). -/
def upToPat (pat : List Char) : List Char → List Char
  | [] => []
  | c :: rest => if pat.isPrefixOf (c :: rest) then [] else c :: upToPat pat rest

/-- Characters before the first closing brace (`.split("\x7d")[0]`). -/
def upToBrace : List Char → List Char
  | [] => []
  | c :: rest => if c = '\x7d' then [] else c :: upToBrace rest

/-- `value.split(pat)[1].split("\x7d")[0]`: the placeholder key between the
first occurrence of `pat` and the next `\x7d` (or next `pat`, or end). -/
def placeholderKey (pat : String) (value : String) : String :=
  match afterFirst pat.data value.data with
  | some cs => String.mk (upToBrace (upToPat pat.data cs))
  | Option.none => ""

/-- Interpolate one parameter value (`_interpolate_params` loop body):
a string containing `$\x7blabel.X\x7d` becomes `labels[X]` (or stays verbatim
when absent), analogously for `$\x7bannotation.X\x7d`; everything else passes
through unchanged. -/
def interpValue (value : PyObj) (labels : PyDict) (annotations : PyObj) :
    Except String PyObj :=
  match value with
  | .str s =>
    if strContains s "$\x7blabel." then
      .ok (dgetD labels (placeholderKey "$\x7blabel." s) (.str s))
    else if strContains s "$\x7bannotation." then
      match annotations with
      | .dict a => .ok (dgetD a (placeholderKey "$\x7bannotation." s) (.str s))
      | _ => .error "AttributeError: annotations has no attribute get"
    else .ok (.str s)
  | v => .ok v

/-- `_interpolate_params(params, labels, annotations)`: a fresh dict with each
value interpolated. -/
def _interpolate_params (params : PyDict) (labels : PyDict) (annotations : PyObj) :
    Except String PyDict :=
  match params with
  | [] => .ok []
  | (k, v) :: rest =>
    match interpValue v labels annotations with
    | .error e => .error e
    | .ok v' =>
      match _interpolate_params rest labels annotations with
      | .error e => .error e
      | .ok rest' => .ok ((k, v') :: rest')

/-- Lines 42-50 of self_healing.py: copy the matched policy's action template,
attach `policy_name` and `alert_labels`, and interpolate `params` when
present (`params.items()` raises on a non-dict value). -/
def buildMatchedAction (policy : Policy) (labels : PyDict) (annotations : PyObj) :
    Except String PyDict :=
  let action := dset (dset policy.action "policy_name" (.str policy.name))
    "alert_labels" (.dict labels)
  if dmem action "params" then
    match dgetD action "params" .none with
    | .dict params =>
      match _interpolate_params params labels annotations with
      | .error e => .error e
      | .ok params' => .ok (dset action "params" (.dict params'))
    | _ => .error "AttributeError: params has no attribute items"
  else .ok action

/-- Inner loop of `evaluate_alert`: scan the policies (in the given order) for
the first whose condition matches this entry. -/
def evalPolicies (policies : List Policy) (labels : PyDict) (annotations : PyObj)
    (status : String) : Except String (Option PyDict) :=
  match policies with
  | [] => .ok Option.none
  | p :: rest =>
    match _match_condition p.condition labels annotations status with
    | .error e => .error e
    | .ok true =>
      match buildMatchedAction p labels annotations with
      | .error e => .error e
      | .ok a => .ok (some a)
    | .ok false => evalPolicies rest labels annotations status

/-- Outer loop of `evaluate_alert`: scan the payload's `alerts` entries in
order. A non-dict entry, or a non-dict `labels` value (immediately forced by
the progress-print `labels.get("alertname", ...)`), raises. -/
def evalAlertItems (policies : List Policy) (items : List PyObj) (status : String) :
    Except String (Option PyDict) :=
  match items with
  | [] => .ok Option.none
  | item :: rest =>
    match item with
    | .dict d =>
      match dgetD d "labels" (.dict []) with
      | .dict labels =>
        match evalPolicies policies labels (dgetD d "annotations" (.dict [])) status with
        | .ok Option.none => evalAlertItems policies rest status
        | r => r
      | _ => .error "AttributeError: labels has no attribute get"
    | _ => .error "AttributeError: alert item has no attribute get"

/-- `evaluate_alert(alert)` with the fetched policy list explicit: `None` when
there are no policies, otherwise the entry-major scan. -/
def evaluate_alert (alert : PrometheusAlert) (policies : List Policy) :
    Except String (Option PyDict) :=
  if policies.isEmpty then .ok Option.none
  else evalAlertItems policies alert.alerts alert.status

/-- Whether policy `p` matches alert entry `item` (errors count as no match);
used only to state the specification's selection rule. -/
def entryMatches (p : Policy) (status : String) (item : PyObj) : Bool :=
  match item with
  | .dict d =>
    match dgetD d "labels" (.dict []) with
    | .dict labels =>
      match _match_condition p.condition labels (dgetD d "annotations" (.dict [])) status with
      | .ok b => b
      | .error _ => false
    | _ => false
  | _ => false

/-- The policy the claim designates: the lowest-priority-number policy whose
condition matches some alert entry — with the list sorted ascending by
priority, the first such policy in list order. -/
def claimSelectedPolicy (policies : List Policy) (alert : PrometheusAlert) :
    Option Policy :=
  policies.find? fun p => alert.alerts.any (entryMatches p alert.status)

/-! ## Theorems for the alert evaluator (C1) -/

/-- Two-entry alert: the first entry matches only the *higher*-priority
policy. -/
def c1Alert : PrometheusAlert :=
  ⟨"firing",
   [.dict [("labels", .dict [("b", .str "2")])],
    .dict [("labels", .dict [("a", .str "1")])]]⟩

/-- Two policies, sorted ascending by priority. -/
def c1Policies : List Policy :=
  [⟨"low", [("label", .str "a"), ("value", .str "1")], [("tool", .str "t1")], 5⟩,
   ⟨"high", [("label", .str "b"), ("value", .str "2")], [("tool", .str "t2")], 10⟩]

/-- C1 counterexample: on `c1Alert` against the ascending-priority set
`c1Policies`, `evaluate_alert` returns the action of the priority-10 policy
`high` (the first match in entry-major order), even though the
lowest-priority-number policy matching *some* entry is the priority-5 policy
`low` — so the returned action is not the lowest-priority match's action. -/
theorem evaluate_alert_not_lowest_priority :
    (c1Policies.map Policy.priority = [5, 10])
    ∧ evaluate_alert c1Alert c1Policies =
        .ok (some [("tool", .str "t2"), ("policy_name", .str "high"),
                   ("alert_labels", .dict [("b", .str "2")])])
    ∧ (∃ p, claimSelectedPolicy c1Policies c1Alert = some p ∧ p.name = "low"
          ∧ p.priority = 5 ∧ dlookup p.action "tool" = some (.str "t1"))
    ∧ ("high" : String) ≠ "low" :=
  ⟨rfl, rfl,
   ⟨⟨"low", [("label", .str "a"), ("value", .str "1")], [("tool", .str "t1")], 5⟩,
     rfl, rfl, rfl, rfl⟩,
   by decide⟩

theorem evalPolicies_ok_none (labels : PyDict) (annotations : PyObj) (status : String) :
    ∀ policies : List Policy,
      evalPolicies policies labels annotations status = .ok Option.none →
      ∀ p ∈ policies, _match_condition p.condition labels annotations status = .ok false := by
  intro policies
  induction policies with
  | nil => intro _ p hp; exact absurd hp (List.not_mem_nil p)
  | cons q rest ih =>
    intro h p hp
    simp only [evalPolicies] at h
    cases hm : _match_condition q.condition labels annotations status with
    | error e => rw [hm] at h; simp at h
    | ok b =>
      rw [hm] at h
      cases b with
      | true =>
        exfalso
        cases hb : buildMatchedAction q labels annotations with
        | error e => rw [hb] at h; simp at h
        | ok a => rw [hb] at h; simp at h
      | false =>
        rcases List.mem_cons.mp hp with rfl | hp'
        · exact hm
        · exact ih h p hp'

theorem evalPolicies_ok_some (labels : PyDict) (annotations : PyObj) (status : String)
    (a : PyDict) :
    ∀ policies : List Policy,
      evalPolicies policies labels annotations status = .ok (some a) →
      ∃ j p, policies.get? j = some p
        ∧ _match_condition p.condition labels annotations status = .ok true
        ∧ (∀ j' p', j' < j → policies.get? j' = some p' →
            _match_condition p'.condition labels annotations status = .ok false)
        ∧ buildMatchedAction p labels annotations = .ok a := by
  intro policies
  induction policies with
  | nil => intro h; simp [evalPolicies] at h
  | cons q rest ih =>
    intro h
    simp only [evalPolicies] at h
    cases hm : _match_condition q.condition labels annotations status with
    | error e => rw [hm] at h; simp at h
    | ok b =>
      rw [hm] at h
      cases b with
      | true =>
        cases hb : buildMatchedAction q labels annotations with
        | error e => rw [hb] at h; simp at h
        | ok a' =>
          rw [hb] at h
          simp only [Except.ok.injEq, Option.some.injEq] at h
          subst h
          exact ⟨0, q, rfl, hm, by intro j' p' hj' _; omega, hb⟩
      | false =>
        obtain ⟨j, p, hget, htrue, hbefore, hbuild⟩ := ih h
        refine ⟨j + 1, p, hget, htrue, ?_, hbuild⟩
        intro j' p' hj' hget'
        cases j' with
        | zero =>
          simp only [List.get?] at hget'
          cases hget'
          exact hm
        | succ j'' => exact hbefore j'' p' (by omega) hget'

theorem evalPolicies_all_false (labels : PyDict) (annotations : PyObj) (status : String) :
    ∀ policies : List Policy,
      (∀ p ∈ policies, _match_condition p.condition labels annotations status = .ok false) →
      evalPolicies policies labels annotations status = .ok Option.none := by
  intro policies
  induction policies with
  | nil => intro _; rfl
  | cons q rest ih =>
    intro h
    simp only [evalPolicies, h q (List.mem_cons_self q rest)]
    exact ih fun p hp => h p (List.mem_cons_of_mem q hp)

theorem evalAlertItems_ok_some (policies : List Policy) (status : String) (a : PyDict) :
    ∀ items : List PyObj,
      evalAlertItems policies items status = .ok (some a) →
      ∃ i item d labels, items.get? i = some item ∧ item = .dict d
        ∧ dgetD d "labels" (.dict []) = .dict labels
        ∧ evalPolicies policies labels (dgetD d "annotations" (.dict [])) status = .ok (some a)
        ∧ (∀ i' item', i' < i → items.get? i' = some item' →
            ∃ d' labels', item' = .dict d' ∧ dgetD d' "labels" (.dict []) = .dict labels'
              ∧ evalPolicies policies labels' (dgetD d' "annotations" (.dict [])) status
                  = .ok Option.none) := by
  intro items
  induction items with
  | nil => intro h; simp [evalAlertItems] at h
  | cons item rest ih =>
    intro h
    simp only [evalAlertItems] at h
    split at h
    · rename_i d
      split at h
      · rename_i labels hl
        split at h
        · rename_i hp
          obtain ⟨i, item', d', labels', hget, hd, hl', hpol, hbefore⟩ := ih h
          refine ⟨i + 1, item', d', labels', hget, hd, hl', hpol, ?_⟩
          intro i' it hlt hget'
          cases i' with
          | zero =>
            simp only [List.get?] at hget'
            cases hget'
            exact ⟨d, labels, rfl, hl, hp⟩
          | succ i'' => exact hbefore i'' it (by omega) hget'
        · rename_i r hr
          exact ⟨0, .dict d, d, labels, rfl, rfl, hl, h, by intro i' it hlt; omega⟩
      · rename_i hl
        exact absurd h (by simp)
    · rename_i hnd
      exact absurd h (by simp)

theorem evalAlertItems_all_false (policies : List Policy) (status : String) :
    ∀ items : List PyObj,
      (∀ item ∈ items, ∃ d labels, item = .dict d
        ∧ dgetD d "labels" (.dict []) = .dict labels
        ∧ ∀ p ∈ policies,
            _match_condition p.condition labels (dgetD d "annotations" (.dict [])) status
              = .ok false) →
      evalAlertItems policies items status = .ok Option.none := by
  intro items
  induction items with
  | nil => intro _; rfl
  | cons item rest ih =>
    intro h
    obtain ⟨d, labels, rfl, hl, hfalse⟩ := h item (List.mem_cons_self item rest)
    simp only [evalAlertItems, hl,
      evalPolicies_all_false labels (dgetD d "annotations" (.dict [])) status policies hfalse]
    exact ih fun it hit => h it (List.mem_cons_of_mem _ hit)

/-- C1 (amended): `evaluate_alert` returns the action built from the *first
matching (entry, policy) pair in entry-major order* — the earliest alert entry
(payload order) that matches any policy, paired with the earliest
(ascending-priority) policy matching that entry — and returns `None` when the
policy set is empty or no pair matches. (It is *not* in general the
lowest-priority-number policy matching some entry, see
`evaluate_alert_not_lowest_priority`.) -/
theorem evaluate_alert_entry_major (policies : List Policy) (alert : PrometheusAlert) :
    (policies = [] → evaluate_alert alert policies = .ok Option.none)
    ∧ (∀ a, evaluate_alert alert policies = .ok (some a) →
        ∃ i j item d labels p,
          alert.alerts.get? i = some item ∧ item = .dict d
          ∧ dgetD d "labels" (.dict []) = .dict labels
          ∧ policies.get? j = some p
          ∧ _match_condition p.condition labels (dgetD d "annotations" (.dict []))
              alert.status = .ok true
          ∧ (∀ j' p', j' < j → policies.get? j' = some p' →
              _match_condition p'.condition labels (dgetD d "annotations" (.dict []))
                alert.status = .ok false)
          ∧ (∀ i' item', i' < i → alert.alerts.get? i' = some item' →
              ∃ d' labels', item' = .dict d' ∧ dgetD d' "labels" (.dict []) = .dict labels'
                ∧ ∀ p' ∈ policies,
                    _match_condition p'.condition labels' (dgetD d' "annotations" (.dict []))
                      alert.status = .ok false)
          ∧ buildMatchedAction p labels (dgetD d "annotations" (.dict [])) = .ok a)
    ∧ ((∀ item ∈ alert.alerts, ∃ d labels, item = .dict d
          ∧ dgetD d "labels" (.dict []) = .dict labels
          ∧ ∀ p ∈ policies,
              _match_condition p.condition labels (dgetD d "annotations" (.dict []))
                alert.status = .ok false) →
        evaluate_alert alert policies = .ok Option.none) := by
  refine ⟨?_, ?_, ?_⟩
  · rintro rfl
    rfl
  · intro a h
    rw [evaluate_alert] at h
    split at h
    · simp at h
    · obtain ⟨i, item, d, labels, hget, hd, hl, hpol, hbefore⟩ :=
        evalAlertItems_ok_some policies alert.status a alert.alerts h
      obtain ⟨j, p, hgetp, htrue, hjbefore, hbuild⟩ :=
        evalPolicies_ok_some labels (dgetD d "annotations" (.dict [])) alert.status a
          policies hpol
      refine ⟨i, j, item, d, labels, p, hget, hd, hl, hgetp, htrue, hjbefore, ?_, hbuild⟩
      intro i' item' hlt hget'
      obtain ⟨d', labels', hd', hl', hz⟩ := hbefore i' item' hlt hget'
      exact ⟨d', labels', hd', hl',
        evalPolicies_ok_none labels' (dgetD d' "annotations" (.dict [])) alert.status
          policies hz⟩
  · intro h
    rw [evaluate_alert]
    split
    · rfl
    · exact evalAlertItems_all_false policies alert.status alert.alerts h

/-- Witness for C1's amended theorem: the empty policy set yields `None`, and
on `c1Alert` with `c1Policies` every entry of an all-mismatching alert also
yields `None`. -/
theorem evaluate_alert_entry_major_witness :
    evaluate_alert c1Alert [] = .ok Option.none
    ∧ evaluate_alert ⟨"firing", [.dict [("labels", .dict [("z", .str "9")])]]⟩ c1Policies
        = .ok Option.none :=
  ⟨(evaluate_alert_entry_major [] c1Alert).1 rfl,
   (evaluate_alert_entry_major c1Policies
      ⟨"firing", [.dict [("labels", .dict [("z", .str "9")])]]⟩).2.2
    (by
      intro item hit
      simp only [List.mem_cons, List.not_mem_nil, or_false] at hit
      subst hit
      refine ⟨[("labels", .dict [("z", .str "9")])], [("z", .str "9")], rfl, rfl, ?_⟩
      intro p hp
      simp only [c1Policies, List.mem_cons, List.not_mem_nil, or_false] at hp
      rcases hp with rfl | rfl <;> rfl)⟩

/-! ## Heap model of the action construction (C7)

`action = policy.action.copy()` (self_healing.py line 42) is a *shallow*
`dict.copy`. Object identity is invisible to pure values, so lines 42-50 are
additionally modelled over an explicit store: addresses index heap nodes
(dicts/lists); primitives (None/bool/int/str) are immutable values. The
webhook labels/annotations dicts are taken string-valued, as they are in the
alert payloads this code receives. -/

/-- An immutable Python primitive. -/
inductive HPrim where
  | none
  | bool (b : Bool)
  | int (n : Int)
  | str (s : String)
deriving DecidableEq, Repr

/-- A stored value: a primitive, or a reference to a heap node. -/
inductive HVal where
  | prim (p : HPrim)
  | ref (a : Nat)
deriving DecidableEq, Repr

/-- A mutable heap node: a dict or a list. -/
inductive HNode where
  | dict (entries : List (String × HVal))
  | list (items : List HVal)
deriving DecidableEq, Repr

/-- The heap: node at address `a` is `st.get? a`; allocation appends. -/
abbrev Store := List HNode

/-- Entry lookup in a heap dict. -/
def hlookup (es : List (String × HVal)) (k : String) : Option HVal :=
  match es with
  | [] => Option.none
  | (k', v) :: rest => if k' == k then some v else hlookup rest k

/-- `d[k] = v` on a heap dict body. -/
def hset (es : List (String × HVal)) (k : String) (v : HVal) : List (String × HVal) :=
  match es with
  | [] => [(k, v)]
  | (k', v') :: rest => if k' == k then (k', v) :: rest else (k', v') :: hset rest k v

/-- `.get(k, dflt)` on a string-valued dict. -/
def sgetD (d : List (String × String)) (k : String) (dflt : String) : String :=
  match d with
  | [] => dflt
  | (k', v) :: rest => if k' == k then v else sgetD rest k dflt

/-- `_interpolate_params` loop body over the heap: placeholder strings are
replaced by (immutable) label/annotation strings; every other value — in
particular a reference to a nested dict or list — passes through *unchanged*,
so it stays the same heap object. -/
def hInterpVal (v : HVal) (labels annotations : List (String × String)) : HVal :=
  match v with
  | .prim (.str s) =>
    if strContains s "$\x7blabel." then
      .prim (.str (sgetD labels (placeholderKey "$\x7blabel." s) s))
    else if strContains s "$\x7bannotation." then
      .prim (.str (sgetD annotations (placeholderKey "$\x7bannotation." s) s))
    else v
  | v => v

/-- `_interpolate_params` over the heap: a fresh dict body, values mapped by
`hInterpVal`. -/
def hInterpDict (pentries : List (String × HVal)) (labels annotations : List (String × String)) :
    List (String × HVal) :=
  pentries.map fun kv => (kv.1, hInterpVal kv.2 labels annotations)

/-- Lines 42-50 of self_healing.py over the heap, entered when a policy has
matched: shallow-copy the action template into a fresh node, attach
`policy_name` and a reference to the alert's labels dict, and, when `params`
is present (a reference to a dict node), replace it by a reference to a fresh
interpolated dict node. -/
def buildActionStore (st : Store) (policyName : String) (actionAddr labelsAddr : Nat)
    (labels annotations : List (String × String)) : Except String (Store × Nat) :=
  match st.get? actionAddr with
  | some (.dict entries) =>
    let e2 := hset (hset entries "policy_name" (.prim (.str policyName)))
      "alert_labels" (.ref labelsAddr)
    match hlookup e2 "params" with
    | some (.ref pa) =>
      (match st.get? pa with
       | some (.dict pentries) =>
         .ok ((st ++ [.dict (hset e2 "params" (.ref (st.length + 1)))])
               ++ [.dict (hInterpDict pentries labels annotations)], st.length)
       | _ => .error "AttributeError: params has no attribute items")
    | some _ => .error "AttributeError: params has no attribute items"
    | Option.none => .ok (st ++ [.dict e2], st.length)
  | _ => .error "AttributeError: action has no attribute copy"

/-- Addresses referenced directly from a node. -/
def nodeRefs : HNode → List Nat
  | .dict es => es.filterMap fun kv =>
      match kv.2 with
      | .ref a => some a
      | _ => Option.none
  | .list xs => xs.filterMap fun v =>
      match v with
      | .ref a => some a
      | _ => Option.none

/-- Addresses reachable from `a` in at most `fuel` dereference steps
("parts of" the object at `a`, including itself). -/
def reachable (st : Store) (fuel : Nat) (a : Nat) : List Nat :=
  match fuel with
  | 0 => [a]
  | fuel + 1 =>
    a :: (match st.get? a with
          | some n => (nodeRefs n).flatMap (reachable st fuel)
          | Option.none => [])

/-- Some mutable part of the object at `a` is the same heap object as some
part of the object at `b`. -/
def sharesHeapPart (st : Store) (fuel : Nat) (a b : Nat) : Bool :=
  (reachable st fuel a).any fun x => (reachable st fuel b).contains x

/-! ## Theorems for the action-construction copy depth (C7) -/

theorem hlookup_hset (es : List (String × HVal)) (k : String) (v : HVal) (k' : String) :
    hlookup (hset es k v) k' = if k == k' then some v else hlookup es k' := by
  induction es with
  | nil => simp [hset, hlookup]
  | cons kv rest ih =>
    obtain ⟨k0, v0⟩ := kv
    by_cases h0 : k0 = k
    · subst h0
      by_cases h1 : k0 = k'
      · subst h1; simp [hset, hlookup]
      · simp [hset, hlookup, h1, beq_eq_false_iff_ne.mpr h1]
    · by_cases h1 : k0 = k'
      · subst h1
        simp only [hset, beq_eq_false_iff_ne.mpr h0, if_neg, Bool.false_eq_true,
          not_false_eq_true, hlookup, beq_self_eq_true, if_pos]
        have : (k == k0) = false := beq_eq_false_iff_ne.mpr fun h => h0 h.symm
        simp [this]
      · simp [hset, hlookup, beq_eq_false_iff_ne.mpr h0, beq_eq_false_iff_ne.mpr h1, ih]

/-- Heap for the C7 counterexample: address 0 is the policy's action template
`{tool: "t", meta: <ref 1>}`, address 1 the nested dict `{k: "v"}`, address 2
the alert's labels dict. -/
def c7Store : Store :=
  [.dict [("tool", .prim (.str "t")), ("meta", .ref 1)],
   .dict [("k", .prim (.str "v"))],
   .dict []]

/-- C7 counterexample: running the matched-policy action construction on
`c7Store` returns a fresh top dict whose `meta` entry is *the same heap
object* (address 1) as the template's `meta` — a nested mutable part of the
returned action is shared with the stored policy's action template, so the
copy is shallow, not deep. -/
theorem buildActionStore_not_deep_copy :
    ∃ st' a', buildActionStore c7Store "restart-on-crashloop" 0 2 [] [] = .ok (st', a')
      ∧ sharesHeapPart st' 3 a' 0 = true
      ∧ (reachable st' 3 a').contains 1 = true
      ∧ (reachable st' 3 0).contains 1 = true
      ∧ st'.get? 1 = some (.dict [("k", .prim (.str "v"))]) :=
  ⟨_, _, rfl, rfl, rfl, rfl, rfl⟩

/-- C7 (amended): on a matched policy the action construction allocates a
*fresh top-level dict* (its address is new), leaves every pre-existing heap
object untouched, attaches `policy_name` and a reference to the alert's
labels dict, and keeps every other top-level entry — including references to
nested mutable objects — *identical* to the template's entry: a shallow copy.
(`params`, when present, is replaced by a reference to a fresh interpolated
dict; non-string values inside it are likewise shared.) -/
theorem buildActionStore_shallow_copy :
    ∀ (st : Store) (pn : String) (aAddr lAddr : Nat)
      (labels annotations : List (String × String))
      (entries : List (String × HVal)) (st' : Store) (a' : Nat),
      st.get? aAddr = some (.dict entries) →
      buildActionStore st pn aAddr lAddr labels annotations = .ok (st', a') →
      a' = st.length
      ∧ (∀ b, b < st.length → st'.get? b = st.get? b)
      ∧ ∃ e', st'.get? a' = some (.dict e')
          ∧ hlookup e' "policy_name" = some (.prim (.str pn))
          ∧ hlookup e' "alert_labels" = some (.ref lAddr)
          ∧ ∀ k, k ≠ "policy_name" → k ≠ "alert_labels" → k ≠ "params" →
              hlookup e' k = hlookup entries k := by
  intro st pn aAddr lAddr labels annotations entries st' a' ha hb
  have hpn : ∀ k, k ≠ "policy_name" → k ≠ "alert_labels" →
      hlookup (hset (hset entries "policy_name" (.prim (.str pn)))
        "alert_labels" (.ref lAddr)) k = hlookup entries k := by
    intro k h1 h2
    rw [hlookup_hset, if_neg (by simp [beq_eq_false_iff_ne.mpr fun h => h2 h.symm]),
      hlookup_hset, if_neg (by simp [beq_eq_false_iff_ne.mpr fun h => h1 h.symm])]
  simp only [buildActionStore, ha] at hb
  split at hb
  · rename_i pa hpa
    split at hb
    · rename_i pentries hget
      simp only [Except.ok.injEq, Prod.mk.injEq] at hb
      obtain ⟨h1, h2⟩ := hb
      subst h1
      subst h2
      refine ⟨rfl, ?_, ?_⟩
      · intro b hblt
        rw [List.get?_append (by simp; omega), List.get?_append (by omega)]
      · refine ⟨hset (hset (hset entries "policy_name" (.prim (.str pn)))
          "alert_labels" (.ref lAddr)) "params" (.ref (st.length + 1)), ?_, ?_, ?_, ?_⟩
        · rw [List.get?_append (by simp), List.get?_concat_length]
        · rw [hlookup_hset, if_neg (by decide), hlookup_hset, if_neg (by decide),
            hlookup_hset, if_pos (by decide)]
        · rw [hlookup_hset, if_neg (by decide), hlookup_hset, if_pos (by decide)]
        · intro k h1 h2 h3
          rw [hlookup_hset, if_neg (by simp [beq_eq_false_iff_ne.mpr fun h => h3 h.symm])]
          exact hpn k h1 h2
    · exact absurd hb (by simp)
  · rename_i v hv hpa
    exact absurd hb (by simp)
  · rename_i hpa
    simp only [Except.ok.injEq, Prod.mk.injEq] at hb
    obtain ⟨h1, h2⟩ := hb
    subst h1
    subst h2
    refine ⟨rfl, ?_, ?_⟩
    · intro b hblt
      rw [List.get?_append (by omega)]
    · refine ⟨hset (hset entries "policy_name" (.prim (.str pn)))
        "alert_labels" (.ref lAddr), List.get?_concat_length .., ?_, ?_, ?_⟩
      · rw [hlookup_hset, if_neg (by decide), hlookup_hset, if_pos (by decide)]
      · rw [hlookup_hset, if_pos (by decide)]
      · intro k h1 h2 _
        exact hpn k h1 h2

/-- Witness for C7's amended theorem at the counterexample heap: the fresh
action dict is allocated at the next free address. -/
theorem buildActionStore_shallow_copy_witness : (3 : Nat) = c7Store.length :=
  (buildActionStore_shallow_copy c7Store "restart-on-crashloop" 0 2 [] []
    [("tool", .prim (.str "t")), ("meta", .ref 1)] _ 3 rfl rfl).1

/-! ## `json.dumps` / `json.loads`

The engine and worker serialize with `json.dumps` (default separators
`", "` / `": "`, `ensure_ascii`) and parse with `json.loads`. Float literals
do not occur in the embedded logic and are outside the model (the parser
rejects them); `\uXXXX` escapes outside the scalar range fall back to the
null character, as no embedded string uses them. -/

/-- Lower-case hex digit of `n < 16`. -/
def hexDigit (n : Nat) : Char :=
  if n < 10 then Char.ofNat ('0'.toNat + n) else Char.ofNat ('a'.toNat + n - 10)

/-- `\uXXXX` escape for code point `n < 0x10000`. -/
def uEsc (n : Nat) : List Char :=
  ['\\', 'u', hexDigit (n / 4096 % 16), hexDigit (n / 256 % 16),
   hexDigit (n / 16 % 16), hexDigit (n % 16)]

/-- One character as `json.dumps` emits it (`ensure_ascii=True`). -/
def escapeJsonChar (c : Char) : List Char :=
  if c = '"' then ['\\', '"']
  else if c = '\\' then ['\\', '\\']
  else if c = '\n' then ['\\', 'n']
  else if c = '\t' then ['\\', 't']
  else if c = '\r' then ['\\', 'r']
  else if c.toNat = 8 then ['\\', 'b']
  else if c.toNat = 12 then ['\\', 'f']
  else if c.toNat < 0x20 then uEsc c.toNat
  else if c.toNat ≤ 0x7e then [c]
  else if c.toNat < 0x10000 then uEsc c.toNat
  else uEsc (0xd800 + (c.toNat - 0x10000) / 0x400) ++ uEsc (0xdc00 + (c.toNat - 0x10000) % 0x400)

mutual
/-- `json.dumps`, producing characters. -/
def dumpsL : PyObj → List Char
  | .none => "null".data
  | .bool true => "true".data
  | .bool false => "false".data
  | .int n => (toString n).data
  | .str s => '"' :: (s.data.flatMap escapeJsonChar ++ ['"'])
  | .list xs => '[' :: (dumpsItems xs ++ [']'])
  | .dict xs => '\x7b' :: (dumpsMembers xs ++ ['\x7d'])
def dumpsItems : List PyObj → List Char
  | [] => []
  | [x] => dumpsL x
  | x :: xs => dumpsL x ++ ',' :: ' ' :: dumpsItems xs
def dumpsMembers : PyDict → List Char
  | [] => []
  | [(k, v)] => '"' :: (k.data.flatMap escapeJsonChar ++ '"' :: ':' :: ' ' :: dumpsL v)
  | (k, v) :: xs =>
    '"' :: (k.data.flatMap escapeJsonChar ++ '"' :: ':' :: ' ' :: dumpsL v)
      ++ ',' :: ' ' :: dumpsMembers xs
end

/-- `json.dumps(v)`. -/
def dumps (v : PyObj) : String := String.mk (dumpsL v)

/-- JSON whitespace. -/
def jsonWs (c : Char) : Bool := c == ' ' || c == '\t' || c == '\n' || c == '\r'

/-- Drop leading JSON whitespace. -/
def skipJsonWs : List Char → List Char
  | c :: rest => if jsonWs c then skipJsonWs rest else c :: rest
  | [] => []

/-- Value of a hex digit. -/
def hexVal (c : Char) : Option Nat :=
  let n := c.toNat
  if 48 ≤ n ∧ n ≤ 57 then some (n - 48)
  else if 97 ≤ n ∧ n ≤ 102 then some (n - 87)
  else if 65 ≤ n ∧ n ≤ 70 then some (n - 55)
  else Option.none

/-- The single-character JSON escapes. -/
def unescapeChar (c : Char) : Option Char :=
  if c = 'n' then some '\n'
  else if c = 't' then some '\t'
  else if c = 'r' then some '\r'
  else if c = 'b' then some (Char.ofNat 8)
  else if c = 'f' then some (Char.ofNat 12)
  else if c = '"' ∨ c = '\\' ∨ c = '/' then some c
  else Option.none

/-- String body after the opening quote: unescaped characters plus the rest
after the closing quote. -/
def parseStringBody : List Char → Option (List Char × List Char)
  | [] => Option.none
  | c :: rest =>
    if c = '"' then some ([], rest)
    else if c = '\\' then
      match rest with
      | 'u' :: a :: b :: c2 :: d :: r =>
        (match hexVal a, hexVal b, hexVal c2, hexVal d with
         | some va, some vb, some vc, some vd =>
           (parseStringBody r).map fun sr =>
             (Char.ofNat (((va * 16 + vb) * 16 + vc) * 16 + vd) :: sr.1, sr.2)
         | _, _, _, _ => Option.none)
      | e :: r =>
        (match unescapeChar e with
         | some ch => (parseStringBody r).map fun sr => (ch :: sr.1, sr.2)
         | Option.none => Option.none)
      | [] => Option.none
    else (parseStringBody rest).map fun sr => (c :: sr.1, sr.2)

/-- Leading decimal digits and the rest. -/
def takeDigitsL : List Char → List Char × List Char
  | c :: rest =>
    if c.isDigit then
      match takeDigitsL rest with
      | (ds, r) => (c :: ds, r)
    else ([], c :: rest)
  | [] => ([], [])

/-- Numeric value of a digit run. -/
def digitsVal (ds : List Char) : Nat :=
  ds.foldl (fun acc c => acc * 10 + (c.toNat - '0'.toNat)) 0

/-- Would continue as a float literal (outside the model). -/
def floatish : List Char → Bool
  | c :: _ => c = '.' || c = 'e' || c = 'E'
  | [] => false

/-- A JSON integer literal. -/
def parseIntL (cs : List Char) : Option (PyObj × List Char) :=
  match cs with
  | '-' :: r =>
    (match takeDigitsL r with
     | ([], _) => Option.none
     | (ds, r') => if floatish r' then Option.none else some (.int (-(digitsVal ds : Int)), r'))
  | _ =>
    match takeDigitsL cs with
    | ([], _) => Option.none
    | (ds, r') => if floatish r' then Option.none else some (.int (digitsVal ds), r')

mutual
/-- One JSON value; `fuel` bounds the recursion (callers pass the input
length, which always suffices). -/
def parseVal : Nat → List Char → Option (PyObj × List Char)
  | 0, _ => Option.none
  | fuel + 1, cs =>
    match skipJsonWs cs with
    | 'n' :: 'u' :: 'l' :: 'l' :: r => some (.none, r)
    | 't' :: 'r' :: 'u' :: 'e' :: r => some (.bool true, r)
    | 'f' :: 'a' :: 'l' :: 's' :: 'e' :: r => some (.bool false, r)
    | '"' :: r => (parseStringBody r).map fun sr => (.str (String.mk sr.1), sr.2)
    | '[' :: r =>
      (match skipJsonWs r with
       | ']' :: r' => some (.list [], r')
       | r' => (parseItems fuel r').map fun xr => (.list xr.1, xr.2))
    | '\x7b' :: r =>
      (match skipJsonWs r with
       | '\x7d' :: r' => some (.dict [], r')
       | r' => (parseMembers fuel r').map fun mr => (.dict mr.1, mr.2))
    | c :: r => if c = '-' || c.isDigit then parseIntL (c :: r) else Option.none
    | [] => Option.none
/-- One-or-more comma-separated array items, ending at `]`. -/
def parseItems : Nat → List Char → Option (List PyObj × List Char)
  | 0, _ => Option.none
  | fuel + 1, cs =>
    match parseVal fuel cs with
    | some (v, r) =>
      (match skipJsonWs r with
       | ',' :: r' => (parseItems fuel r').map fun xr => (v :: xr.1, xr.2)
       | ']' :: r' => some ([v], r')
       | _ => Option.none)
    | Option.none => Option.none
/-- One-or-more `"key": value` members, ending at the closing brace. -/
def parseMembers : Nat → List Char → Option (PyDict × List Char)
  | 0, _ => Option.none
  | fuel + 1, cs =>
    match skipJsonWs cs with
    | '"' :: r =>
      (match parseStringBody r with
       | some (k, r1) =>
         (match skipJsonWs r1 with
          | ':' :: r2 =>
            (match parseVal fuel r2 with
             | some (v, r3) =>
               (match skipJsonWs r3 with
                | ',' :: r4 =>
                  (parseMembers fuel r4).map fun mr => ((String.mk k, v) :: mr.1, mr.2)
                | '\x7d' :: r4 => some ([(String.mk k, v)], r4)
                | _ => Option.none)
             | Option.none => Option.none)
          | _ => Option.none)
       | Option.none => Option.none)
    | _ => Option.none
end

/-- `json.loads(s)`: one JSON document, whole-input. -/
def loads (s : String) : Option PyObj :=
  match parseVal (s.length + 1) s.data with
  | some (v, r) => if (skipJsonWs r).isEmpty then some v else Option.none
  | Option.none => Option.none

/-! ## Remediation worker (backend/app/worker.py)

`process_task` looks the task's `tool` up in the static `TOOL_MAP`, logs an
error entry without executing anything when it is unknown, and otherwise
invokes the handler — whose behaviour (result value or raised exception) is
an oracle parameter — converting every exception into an `"error"` Job Log
Entry. The exception texts that Python would interpolate for type errors and
JSON decode errors are abstracted to fixed labels. `worker_loop` is modelled
on a finite queue prefix: one step per dequeued message, malformed payloads
dropped, every failure contained to its own message. -/

/-- A Job Log Entry as `log_job` receives it. -/
structure JobLogEntry where
  action : PyObj
  target : PyObj
  status : PyObj
  result : PyObj

/-- The keys of the worker's static `TOOL_MAP`. -/
def toolNames : List String :=
  ["mcp_restart_vm", "mcp_restart_pod", "mcp_query_prometheus",
   "mcp_get_grafana_dashboard", "mcp_scale_deployment"]

/-- `TOOL_MAP.get(tool_name)`: `None` unless the name is a known tool string. -/
def lookupTool (t : PyObj) : Option String :=
  match t with
  | .str s => if toolNames.contains s then some s else Option.none
  | _ => Option.none

/-- The behaviour of the mapped handlers: result value, or a raised
exception's text. -/
structure ToolOracle where
  run : String → PyDict → Except String PyObj

/-- Python `a or b`. -/
def pyOr (a b : PyObj) : PyObj := if pyTruthy a then a else b

/-- `process_task(task_data)`: the produced Job Log Entry, paired with the
list of handler invocations it performed. -/
def process_task (d : PyDict) (o : ToolOracle) : JobLogEntry × List String :=
  let tool_name := dgetD d "tool" .none
  let params := dgetD d "params" (.dict [])
  match lookupTool tool_name with
  | Option.none =>
    (⟨tool_name, .str (pyStr params), .str "error",
      .str ("Unknown tool: " ++ pyStr tool_name)⟩, [])
  | some name =>
    match params with
    | .dict pd =>
      (match o.run name pd with
       | .error e =>
         (⟨tool_name, .str (pyStr params), .str "error",
           .str ("Error executing " ++ name ++ ": " ++ e)⟩, [name])
       | .ok result =>
         match (match result with | .str s => loads s | r => some r) with
         | Option.none =>
           (⟨tool_name, .str (pyStr params), .str "error",
             .str ("Error executing " ++ name ++ ": JSONDecodeError")⟩, [name])
         | some result_data =>
           match result_data with
           | .dict rd =>
             (⟨tool_name,
               pyOr (dgetD pd "vm_name" .none)
                 (pyOr (dgetD pd "pod_name" .none)
                   (pyOr (dgetD pd "deployment_name" .none) (.str "unknown"))),
               dgetD rd "status" (.str "unknown"), result⟩, [name])
           | _ =>
             (⟨tool_name, .str (pyStr params), .str "error",
               .str ("Error executing " ++ name ++ ": AttributeError")⟩, [name]))
    | _ =>
      -- `tool_func(**params)` with a non-dict raises before the handler runs
      (⟨tool_name, .str (pyStr params), .str "error",
        .str ("Error executing " ++ name ++ ": TypeError")⟩, [])

/-- One iteration of the worker loop on a dequeued message: a malformed
payload is dropped (`json.JSONDecodeError` caught inline), a non-dict payload
raises inside `process_task` and is caught by the loop's outer handler, a
dict payload is processed. -/
def workerStep (o : ToolOracle) (msg : String) : List JobLogEntry × List String :=
  match loads msg with
  | some (.dict d) =>
    match process_task d o with
    | (entry, inv) => ([entry], inv)
  | some _ => ([], [])
  | Option.none => ([], [])

/-- `worker_loop` restricted to a finite queue prefix: the accumulated Job
Log Entries and handler invocations. -/
def worker_loop (o : ToolOracle) : List String → List JobLogEntry × List String
  | [] => ([], [])
  | msg :: rest =>
    match workerStep o msg, worker_loop o rest with
    | (es, inv), (es', inv') => (es ++ es', inv ++ inv')

/-! ## Theorems for the worker (C6) -/

/-- C6: an Action Descriptor whose `tool` is not in the static tool table
produces exactly one Job Log Entry with status `"error"` and invokes no
handler; the loop always continues past a processed message; a malformed
(non-JSON) payload is dropped and the loop continues; a handler exception is
contained to one `"error"` entry and the loop continues. -/
theorem worker_unknown_tool_continues :
    (∀ (d : PyDict) (o : ToolOracle), lookupTool (dgetD d "tool" .none) = Option.none →
        process_task d o =
          (⟨dgetD d "tool" .none, .str (pyStr (dgetD d "params" (.dict []))), .str "error",
            .str ("Unknown tool: " ++ pyStr (dgetD d "tool" .none))⟩, []))
    ∧ (∀ (o : ToolOracle) (msg : String) (rest : List String),
        worker_loop o (msg :: rest) =
          ((workerStep o msg).1 ++ (worker_loop o rest).1,
           (workerStep o msg).2 ++ (worker_loop o rest).2))
    ∧ (∀ (o : ToolOracle) (msg : String) (rest : List String), loads msg = Option.none →
        worker_loop o (msg :: rest) = worker_loop o rest)
    ∧ (∀ (d : PyDict) (o : ToolOracle) (name : String) (pd : PyDict) (e : String),
        lookupTool (dgetD d "tool" .none) = some name →
        dgetD d "params" (.dict []) = .dict pd →
        o.run name pd = .error e →
        process_task d o =
          (⟨dgetD d "tool" .none, .str (pyStr (PyObj.dict pd)), .str "error",
            .str ("Error executing " ++ name ++ ": " ++ e)⟩, [name])) := by
  refine ⟨?_, ?_, ?_, ?_⟩
  · intro d o h
    simp only [process_task, h]
  · intro o msg rest
    simp only [worker_loop]
  · intro o msg rest h
    simp only [worker_loop, workerStep, h, List.nil_append]
  · intro d o name pd e hname hpd hrun
    simp only [process_task, hname, hpd, hrun]

/-- Witness for C6 at a concrete queue: an unknown-tool descriptor yields one
error entry with no invocation, a malformed payload is dropped, and the next
message is still processed (the subsequent dequeue succeeds). -/
theorem worker_unknown_tool_continues_witness :
    process_task [("tool", .str "no_such_tool"), ("params", .dict [])]
        ⟨fun _ _ => .ok (.dict [("status", .str "success")])⟩ =
      (⟨.str "no_such_tool", .str "\x7b\x7d", .str "error",
        .str "Unknown tool: no_such_tool"⟩, [])
    ∧ worker_loop ⟨fun _ _ => .ok (.dict [("status", .str "success")])⟩
        ["not json at all",
         "\x7b\"tool\": \"mcp_restart_pod\", \"params\": \x7b\"pod_name\": \"web-1\"\x7d\x7d"] =
      worker_loop ⟨fun _ _ => .ok (.dict [("status", .str "success")])⟩
        ["\x7b\"tool\": \"mcp_restart_pod\", \"params\": \x7b\"pod_name\": \"web-1\"\x7d\x7d"]
    ∧ (worker_loop ⟨fun _ _ => .ok (.dict [("status", .str "success")])⟩
        ["\x7b\"tool\": \"mcp_restart_pod\", \"params\": \x7b\"pod_name\": \"web-1\"\x7d\x7d"]).2
        = ["mcp_restart_pod"] :=
  ⟨worker_unknown_tool_continues.1 [("tool", .str "no_such_tool"), ("params", .dict [])]
     ⟨fun _ _ => .ok (.dict [("status", .str "success")])⟩ rfl,
   worker_unknown_tool_continues.2.2.1 ⟨fun _ _ => .ok (.dict [("status", .str "success")])⟩
     "not json at all"
     ["\x7b\"tool\": \"mcp_restart_pod\", \"params\": \x7b\"pod_name\": \"web-1\"\x7d\x7d"] rfl,
   rfl⟩

/-! ## Verify stage: `verification_node` (engine.py lines 882-1022)

The stage scans the latest generated message for one of seven regex patterns
(leftmost match; lazy groups take the shortest text), JSON-parses the first
match's group, and converts the two accepted shapes into forwarded tool
calls; any parse failure or absent pattern leaves the response unchanged
(modelled as `Option.none`). The lazy groups are modelled as
first-occurrence scans; the engine's backtracking to *later* literal
occurrences after an inner failure is not modelled — no theorem below
depends on patterns 2-7, which only fire when pattern 1 found no match. -/

/-- Python regex `\s`. -/
def pyWs (c : Char) : Bool :=
  c == ' ' || c == '\t' || c == '\n' || c == '\r' || c == '\x0b' || c == '\x0c'

/-- Drop leading regex whitespace. -/
def skipPyWs : List Char → List Char
  | c :: rest => if pyWs c then skipPyWs rest else c :: rest
  | [] => []

/-- `\s*` followed by a closing code fence. -/
def fenceFollows (cs : List Char) : Bool :=
  match skipPyWs cs with
  | '`' :: '`' :: '`' :: _ => true
  | _ => false

/-- The lazy `[\s\S]*?\}` of patterns 1-2: the shortest run ending in a
closing brace that `\s*`-then-fence follows. -/
def lazyGroupBody : List Char → Option (List Char)
  | [] => Option.none
  | c :: rest =>
    if c = '\x7d' && fenceFollows rest then some ['\x7d']
    else (lazyGroupBody rest).map (c :: ·)

/-- Pattern 1 anchored here: a ```` ```json { ... } ``` ```` block; returns
group 1. -/
def pat1At : List Char → Option (List Char)
  | '`' :: '`' :: '`' :: r =>
    (match skipPyWs r with
     | 'j' :: 's' :: 'o' :: 'n' :: r2 =>
       (match skipPyWs r2 with
        | '\x7b' :: r3 => (lazyGroupBody r3).map ('\x7b' :: ·)
        | _ => Option.none)
     | _ => Option.none)
  | _ => Option.none

/-- Pattern 2 anchored here: a plain fenced `{ ... }` block. -/
def pat2At : List Char → Option (List Char)
  | '`' :: '`' :: '`' :: r =>
    (match skipPyWs r with
     | '\x7b' :: r3 => (lazyGroupBody r3).map ('\x7b' :: ·)
     | _ => Option.none)
  | _ => Option.none

/-- Split a leading `\s*` run off. -/
def wsSplit : List Char → List Char × List Char
  | c :: rest =>
    if pyWs c then
      match wsSplit rest with
      | (w, r) => (c :: w, r)
    else ([], c :: rest)
  | [] => ([], [])

/-- Lazy scan to the first occurrence of `lit`: the characters before it and
the rest after it. -/
def lazyToLit (lit : List Char) : List Char → Option (List Char × List Char)
  | [] => Option.none
  | c :: rest =>
    if lit.isPrefixOf (c :: rest) then some ([], (c :: rest).drop lit.length)
    else (lazyToLit lit rest).map fun pr => (c :: pr.1, pr.2)

/-- Pattern 3 anchored here: a bare object reaching `"tool_calls" : [ ... ]`. -/
def pat3At : List Char → Option (List Char)
  | '\x7b' :: r =>
    (match lazyToLit "\"tool_calls\"".data r with
     | some (pre, r1) =>
       (match wsSplit r1 with
        | (w1, ':' :: r2) =>
          (match wsSplit r2 with
           | (w2, '[' :: r3) =>
             (match lazyToLit [']'] r3 with
              | some (pre2, _) =>
                some ('\x7b' :: pre ++ "\"tool_calls\"".data ++ w1 ++ ':' :: w2
                      ++ '[' :: pre2 ++ [']'])
              | Option.none => Option.none)
           | _ => Option.none)
        | _ => Option.none)
     | Option.none => Option.none)
  | _ => Option.none

/-- Patterns 4-7 anchored here: a bare object reaching
`"domain" : "<domain>"`, group ending at the next closing brace. -/
def patDomainAt (domain : String) : List Char → Option (List Char)
  | '\x7b' :: r =>
    (match lazyToLit "\"domain\"".data r with
     | some (pre, r1) =>
       (match wsSplit r1 with
        | (w1, ':' :: r2) =>
          (match wsSplit r2 with
           | (w2, r3) =>
             if ('"' :: (domain.data ++ ['"'])).isPrefixOf r3 then
               match lazyToLit ['\x7d'] (r3.drop (domain.data.length + 2)) with
               | some (pre2, _) =>
                 some ('\x7b' :: pre ++ "\"domain\"".data ++ w1 ++ ':' :: w2
                       ++ '"' :: domain.data ++ '"' :: pre2 ++ ['\x7d'])
               | Option.none => Option.none
             else Option.none)
        | _ => Option.none)
     | Option.none => Option.none)
  | _ => Option.none

/-- `re.search`: leftmost position where the anchored pattern matches. -/
def reSearch (patAt : List Char → Option (List Char)) : List Char → Option (List Char)
  | [] => patAt []
  | c :: rest =>
    match patAt (c :: rest) with
    | some g => some g
    | Option.none => reSearch patAt rest

/-- The seven patterns in the order `verification_node` tries them. -/
def findCodeMatch (cs : List Char) : Option (List Char) :=
  match reSearch pat1At cs with
  | some g => some g
  | Option.none =>
    match reSearch pat2At cs with
    | some g => some g
    | Option.none =>
      match reSearch pat3At cs with
      | some g => some g
      | Option.none =>
        match reSearch (patDomainAt "kubernetes") cs with
        | some g => some g
        | Option.none =>
          match reSearch (patDomainAt "prometheus") cs with
          | some g => some g
          | Option.none =>
            match reSearch (patDomainAt "grafana") cs with
            | some g => some g
            | Option.none => reSearch (patDomainAt "vmware") cs

/-- A forwarded tool call: its id, `function.name` (stored raw), and
`function.arguments` (the `json.dumps` of the arguments value). -/
structure ToolCall where
  id : String
  fname : PyObj
  arguments : String

/-- The `tool_calls` conversion loop (lines 929-938): `tool_call["name"]`
raises on a missing key or non-dict element, aborting the whole extraction. -/
def toolCallsFromList : Nat → List PyObj → Option (List ToolCall)
  | _, [] => some []
  | i, tc :: rest =>
    match tc with
    | .dict td =>
      (match dlookup td "name" with
       | some nv =>
         (toolCallsFromList (i + 1) rest).map
           (⟨"call_" ++ toString (i + 1), nv, dumps (dgetD td "arguments" (.dict []))⟩ :: ·)
       | Option.none => Option.none)
    | _ => Option.none

/-- Whether a key is one of the six standard Command Descriptor fields. -/
def stdField (k : String) : Bool :=
  k == "domain" || k == "action" || k == "resource" || k == "name"
    || k == "namespace" || k == "query"

/-- The direct `{domain, action, ...}` conversion (lines 950-1001): seed
domain/action/resource, apply the grafana-get uid/title special case, add the
remaining non-`None` standard fields, then every other non-`None` entry. -/
def directFormatArgs (td : PyDict) : PyDict :=
  let args0 : PyDict :=
    [("domain", dgetD td "domain" .none), ("action", dgetD td "action" .none),
     ("resource", dgetD td "resource" .none)]
  let args1 :=
    if pyEq (dgetD td "domain" .none) (.str "grafana")
        && pyEq (dgetD td "action" .none) (.str "get") then
      if dmem td "uid" then dset args0 "name" (dgetD td "uid" .none)
      else if dmem td "title" then dset args0 "name" (dgetD td "title" .none)
      else
        match dgetD td "params" .none with
        | .dict p =>
          if pyTruthy (.dict p) then
            if dmem p "uid" then dset args0 "name" (dgetD p "uid" .none)
            else if dmem p "title" then dset args0 "name" (dgetD p "title" .none)
            else args0
          else args0
        | _ => args0
    else args0
  let args2 := ["name", "namespace", "query"].foldl
    (fun acc k =>
      if dmem acc k then acc
      else
        match dlookup td k with
        | some PyObj.none => acc
        | some v => dset acc k v
        | Option.none => acc)
    args1
  td.foldl
    (fun acc kv =>
      if stdField kv.1 then acc
      else
        match kv.2 with
        | PyObj.none => acc
        | v => dset acc kv.1 v)
    args2

/-- `verification_node` on the latest generated message content: `none` means
the response is left unchanged (no pattern, parse failure, or neither
accepted shape); `some calls` means the message is replaced by the forwarded
tool calls. -/
def verificationExtract (content : String) : Option (List ToolCall) :=
  match findCodeMatch content.data with
  | Option.none => Option.none
  | some g =>
    match loads (String.mk g) with
    | Option.none => Option.none
    | some v =>
      match v with
      | .dict td =>
        if (match dlookup td "tool_calls" with
            | some (.list _) => true
            | _ => false) then
          match dlookup td "tool_calls" with
          | some (.list tcs) => toolCallsFromList 0 tcs
          | _ => Option.none
        else if dmem td "domain" && dmem td "action" then
          some [⟨"call_1", .str "infra_command", dumps (.dict (directFormatArgs td))⟩]
        else Option.none
      | _ => Option.none

/-! ## Round trip through the Verify stage (C5) -/

/-- The canonical `tool_calls` arguments object for a Command Descriptor's
four addressing fields. -/
def encodeArguments (domain action resource name : String) : PyObj :=
  .dict [("domain", .str domain), ("action", .str action),
         ("resource", .str resource), ("name", .str name)]

/-- A Command Descriptor encoded as a fenced `tool_calls` JSON block inside a
model response, exactly as the infrastructure prompt instructs the model to
emit it. -/
def encodeToolCallsBlock (domain action resource name : String) : String :=
  "```json\n"
    ++ dumps (.dict [("tool_calls",
        .list [.dict [("name", .str "infra_command"),
                      ("arguments", encodeArguments domain action resource name)]])])
    ++ "\n```"

/-- C5 counterexample: a legal Command Descriptor whose `name` contains
`"\x7d ```"` encodes to a block in which the lazy fenced-JSON group ends
*inside* the name string, so the extracted text is not valid JSON, the parse
fails, and the Verify stage forwards no tool call at all — the round trip
does not hold for every Command Descriptor. -/
theorem verification_roundtrip_counterexample :
    verificationExtract (encodeToolCallsBlock "grafana" "get" "dashboard" "x\x7d ```")
      = Option.none := rfl

/-- A character that survives the fenced-JSON round trip unescaped: printable
ASCII that is not a quote, backslash, backtick, or closing brace. -/
def fenceSafeChar (c : Char) : Prop :=
  0x20 ≤ c.toNat ∧ c.toNat ≤ 0x7e ∧ c ≠ '"' ∧ c ≠ '\\' ∧ c ≠ '`' ∧ c ≠ '\x7d'

instance (c : Char) : Decidable (fenceSafeChar c) := by
  unfold fenceSafeChar
  infer_instance

/-- Every character of the list is fence-safe. -/
def safeChars (s : List Char) : Prop := ∀ c ∈ s, fenceSafeChar c

instance (s : List Char) : Decidable (safeChars s) := by
  unfold safeChars
  infer_instance

theorem escapeJsonChar_safe (c : Char) (h : fenceSafeChar c) : escapeJsonChar c = [c] := by
  obtain ⟨h1, h2, h3, h4, h5, h6⟩ := h
  have hn : ¬(c = '\n') := fun hc => by rw [hc] at h1; exact absurd h1 (by decide)
  have ht : ¬(c = '\t') := fun hc => by rw [hc] at h1; exact absurd h1 (by decide)
  have hr : ¬(c = '\r') := fun hc => by rw [hc] at h1; exact absurd h1 (by decide)
  rw [escapeJsonChar, if_neg h3, if_neg h4, if_neg hn, if_neg ht, if_neg hr,
    if_neg (by omega), if_neg (by omega), if_neg (by omega), if_pos (by omega)]

theorem flatMap_escape_safe (s : List Char) (h : safeChars s) :
    s.flatMap escapeJsonChar = s := by
  induction s with
  | nil => rfl
  | cons c rest ih =>
    rw [List.flatMap_cons, escapeJsonChar_safe c (h c (List.mem_cons_self c rest)),
      ih fun x hx => h x (List.mem_cons_of_mem c hx)]
    rfl

theorem parseStringBody_safe (s : List Char) (h : safeChars s) (rest : List Char) :
    parseStringBody (s ++ '"' :: rest) = some (s, rest) := by
  induction s with
  | nil => simp [parseStringBody.eq_def]
  | cons c cs ih =>
    obtain ⟨-, -, h3, h4, -, -⟩ := h c (List.mem_cons_self c cs)
    rw [List.cons_append, parseStringBody.eq_def]
    simp only [if_neg h3, if_neg h4, ih fun x hx => h x (List.mem_cons_of_mem c hx),
      Option.map_some']

theorem skipJsonWs_not_ws (c : Char) (h : jsonWs c = false) (l : List Char) :
    skipJsonWs (c :: l) = c :: l := by
  rw [skipJsonWs, if_neg (by simp [h])]

theorem skipJsonWs_space (l : List Char) : skipJsonWs (' ' :: l) = skipJsonWs l := rfl

theorem parseMembers_str_last (f : Nat) (k v rest : List Char)
    (hk : safeChars k) (hv : safeChars v) :
    parseMembers (f + 2) ('"' :: (k ++ '"' :: ':' :: ' ' :: '"' :: (v ++ '"' :: '\x7d' :: rest)))
      = some ([(String.mk k, .str (String.mk v))], rest) := by
  have sq := skipJsonWs_not_ws '"' (by decide)
  have sc := skipJsonWs_not_ws ':' (by decide)
  have sb := skipJsonWs_not_ws '\x7d' (by decide)
  have hks := parseStringBody_safe k hk
  have hvs := parseStringBody_safe v hv
  simp only [parseMembers, parseVal, sq, sc, sb, hks, hvs, skipJsonWs_space, Option.map_some']

theorem parseMembers_space (fuel : Nat) (cs : List Char) :
    parseMembers (fuel + 1) (' ' :: cs) = parseMembers (fuel + 1) cs := by
  rw [parseMembers, parseMembers, skipJsonWs_space]

theorem parseMembers_str_cons (f : Nat) (k v rest : List Char) (ms : PyDict)
    (r2 : List Char) (hk : safeChars k) (hv : safeChars v)
    (hrest : parseMembers (f + 1) rest = some (ms, r2)) :
    parseMembers (f + 2)
        ('"' :: (k ++ '"' :: ':' :: ' ' :: '"' :: (v ++ '"' :: ',' :: ' ' :: rest)))
      = some ((String.mk k, .str (String.mk v)) :: ms, r2) := by
  have sq := skipJsonWs_not_ws '"' (by decide)
  have sc := skipJsonWs_not_ws ':' (by decide)
  have scm := skipJsonWs_not_ws ',' (by decide)
  have hks := parseStringBody_safe k hk
  have hvs := parseStringBody_safe v hv
  rw [parseMembers]
  simp only [parseVal, sq, sc, scm, hks, hvs, skipJsonWs_space, Option.map_some',
    parseMembers_space, hrest]

/-- The characters of the canonical encoded document, around the four field
character lists. -/
def encChars (d a r n : List Char) : List Char :=
  "\x7b\"tool_calls\": [\x7b\"name\": \"infra_command\", \"arguments\": \x7b\"domain\": \"".data
    ++ d ++ "\", \"action\": \"".data ++ a ++ "\", \"resource\": \"".data ++ r
    ++ "\", \"name\": \"".data ++ n ++ "\"\x7d\x7d]\x7d".data

/-- The parsed value of the canonical document. -/
def docVal (D A R N : String) : PyObj :=
  .dict [("tool_calls", .list [.dict [("name", .str "infra_command"),
    ("arguments", encodeArguments D A R N)]])]

theorem parseVal_space (fuel : Nat) (cs : List Char) :
    parseVal (fuel + 1) (' ' :: cs) = parseVal (fuel + 1) cs := by
  rw [parseVal, parseVal, skipJsonWs_space]

theorem parseVal_dict (f : Nat) (c0 : Char) (cs : List Char) (ms : PyDict) (r2 : List Char)
    (h1 : jsonWs c0 = false) (h2 : c0 ≠ '\x7d')
    (hm : parseMembers (f + 1) (c0 :: cs) = some (ms, r2)) :
    parseVal (f + 2) ('\x7b' :: c0 :: cs) = some (.dict ms, r2) := by
  have s0 := skipJsonWs_not_ws '\x7b' (by decide)
  have sc0 := skipJsonWs_not_ws c0 h1
  rw [parseVal]
  simp only [s0, sc0]
  split
  · rename_i r' heq
    injection heq with hc _
    exact absurd hc h2
  · rw [hm]
    rfl

theorem parseVal_arr (f : Nat) (c0 : Char) (cs : List Char) (xs : List PyObj) (r2 : List Char)
    (h1 : jsonWs c0 = false) (h2 : c0 ≠ ']')
    (hm : parseItems (f + 1) (c0 :: cs) = some (xs, r2)) :
    parseVal (f + 2) ('[' :: c0 :: cs) = some (.list xs, r2) := by
  have s0 := skipJsonWs_not_ws '[' (by decide)
  have sc0 := skipJsonWs_not_ws c0 h1
  rw [parseVal]
  simp only [s0, sc0]
  split
  · rename_i r' heq
    injection heq with hc _
    exact absurd hc h2
  · rw [hm]
    rfl

theorem parseItems_single (f : Nat) (cs : List Char) (v : PyObj) (r2 r3 : List Char)
    (hv : parseVal (f + 1) cs = some (v, r2)) (hr : skipJsonWs r2 = ']' :: r3) :
    parseItems (f + 2) cs = some ([v], r3) := by
  rw [parseItems]
  simp only [hv, hr]

theorem parseMembers_objValue_last (f : Nat) (k : List Char) (hk : safeChars k)
    (cs : List Char) (v : PyObj) (r2 r3 : List Char)
    (hv : parseVal (f + 1) cs = some (v, r2)) (hr : skipJsonWs r2 = '\x7d' :: r3) :
    parseMembers (f + 2) ('"' :: (k ++ '"' :: ':' :: ' ' :: cs))
      = some ([(String.mk k, v)], r3) := by
  have s1 := skipJsonWs_not_ws '"' (by decide)
  have s2 := skipJsonWs_not_ws ':' (by decide)
  have hks := parseStringBody_safe k hk
  rw [parseMembers]
  simp only [s1, s2, hks, parseVal_space, hv, hr]

theorem parse_encChars (f : Nat) (D A R N : String)
    (hD : safeChars D.data) (hA : safeChars A.data)
    (hR : safeChars R.data) (hN : safeChars N.data) :
    parseVal (f + 13) (encChars D.data A.data R.data N.data) = some (docVal D A R N, []) := by
  have m1 := parseMembers_str_last f ['n', 'a', 'm', 'e'] N.data
    ('\x7d' :: ']' :: '\x7d' :: []) (by decide) hN
  have m2 := parseMembers_str_cons (f + 1) ['r', 'e', 's', 'o', 'u', 'r', 'c', 'e'] R.data
    _ _ _ (by decide) hR m1
  have m3 := parseMembers_str_cons (f + 2) ['a', 'c', 't', 'i', 'o', 'n'] A.data
    _ _ _ (by decide) hA m2
  have m4 := parseMembers_str_cons (f + 3) ['d', 'o', 'm', 'a', 'i', 'n'] D.data
    _ _ _ (by decide) hD m3
  have a1 := parseVal_dict (f + 4) '"' _ _ _ (by decide) (by decide) m4
  have b1 := parseMembers_objValue_last (f + 5) ['a', 'r', 'g', 'u', 'm', 'e', 'n', 't', 's']
    (by decide) _ _ _ _ a1 (skipJsonWs_not_ws '\x7d' (by decide) _)
  have c1 := parseMembers_str_cons (f + 6) ['n', 'a', 'm', 'e']
    ['i', 'n', 'f', 'r', 'a', '_', 'c', 'o', 'm', 'm', 'a', 'n', 'd'] _ _ _
    (by decide) (by decide) b1
  have d1 := parseVal_dict (f + 7) '"' _ _ _ (by decide) (by decide) c1
  have e1' := parseItems_single (f + 8) _ _ _ _ d1 (skipJsonWs_not_ws ']' (by decide) _)
  have g1 := parseVal_arr (f + 9) '\x7b' _ _ _ (by decide) (by decide) e1'
  have f1 := parseMembers_objValue_last (f + 10) ['t', 'o', 'o', 'l', '_', 'c', 'a', 'l', 'l', 's']
    (by decide) _ _ _ _ g1 (skipJsonWs_not_ws '\x7d' (by decide) _)
  have h1 := parseVal_dict (f + 11) '"' _ _ _ (by decide) (by decide) f1
  have e1 : "\x7b\"tool_calls\": [\x7b\"name\": \"infra_command\", \"arguments\": \x7b\"domain\": \"".data
      = ['\x7b', '"', 't', 'o', 'o', 'l', '_', 'c', 'a', 'l', 'l', 's', '"', ':', ' ', '[',
         '\x7b', '"', 'n', 'a', 'm', 'e', '"', ':', ' ', '"', 'i', 'n', 'f', 'r', 'a', '_',
         'c', 'o', 'm', 'm', 'a', 'n', 'd', '"', ',', ' ', '"', 'a', 'r', 'g', 'u', 'm',
         'e', 'n', 't', 's', '"', ':', ' ', '\x7b', '"', 'd', 'o', 'm', 'a', 'i', 'n',
         '"', ':', ' ', '"'] := rfl
  have e2 : "\", \"action\": \"".data
      = ['"', ',', ' ', '"', 'a', 'c', 't', 'i', 'o', 'n', '"', ':', ' ', '"'] := rfl
  have e3 : "\", \"resource\": \"".data
      = ['"', ',', ' ', '"', 'r', 'e', 's', 'o', 'u', 'r', 'c', 'e', '"', ':', ' ', '"'] := rfl
  have e4 : "\", \"name\": \"".data
      = ['"', ',', ' ', '"', 'n', 'a', 'm', 'e', '"', ':', ' ', '"'] := rfl
  have e5 : "\"\x7d\x7d]\x7d".data = ['"', '\x7d', '\x7d', ']', '\x7d'] := rfl
  simp only [List.cons_append, List.nil_append] at h1
  simp only [encChars, e1, e2, e3, e4, e5, List.cons_append, List.nil_append,
    List.append_assoc, docVal, encodeArguments]
  exact h1

theorem lgb_cons (c : Char) (h : c ≠ '\x7d') (cs g : List Char)
    (hg : lazyGroupBody cs = some g) : lazyGroupBody (c :: cs) = some (c :: g) := by
  rw [lazyGroupBody]
  simp [h, hg]

theorem lgb_append (xs : List Char) (h : ∀ c ∈ xs, c ≠ '\x7d') (ys g : List Char)
    (hg : lazyGroupBody ys = some g) : lazyGroupBody (xs ++ ys) = some (xs ++ g) := by
  induction xs with
  | nil => simpa using hg
  | cons c rest ih =>
    rw [List.cons_append, List.cons_append]
    exact lgb_cons c (h c (List.mem_cons_self c rest)) _ _
      (ih fun x hx => h x (List.mem_cons_of_mem c hx))

theorem skipPyWs_not_ws (c : Char) (h : pyWs c = false) (l : List Char) :
    skipPyWs (c :: l) = c :: l := by
  rw [skipPyWs, if_neg (by simp [h])]

theorem skipPyWs_nl (l : List Char) : skipPyWs ('\n' :: l) = skipPyWs l := rfl

theorem pat1At_content (d a r n : List Char)
    (hd : ∀ c ∈ d, c ≠ '\x7d') (ha : ∀ c ∈ a, c ≠ '\x7d')
    (hr : ∀ c ∈ r, c ≠ '\x7d') (hn : ∀ c ∈ n, c ≠ '\x7d') :
    pat1At ('`' :: '`' :: '`' :: 'j' :: 's' :: 'o' :: 'n' :: '\n' ::
        (encChars d a r n ++ '\n' :: '`' :: '`' :: '`' :: []))
      = some (encChars d a r n) := by
  have q0 : lazyGroupBody ('\x7d' :: '\x7d' :: ']' :: '\x7d' :: '\n' :: '`' :: '`' :: '`' :: [])
      = some ('\x7d' :: '\x7d' :: ']' :: '\x7d' :: []) := by decide
  have q1 := lgb_cons '"' (by decide) _ _ q0
  have q2 := lgb_append n hn _ _ q1
  have q3 := lgb_append ['"', ',', ' ', '"', 'n', 'a', 'm', 'e', '"', ':', ' ', '"']
    (by decide) _ _ q2
  have q4 := lgb_append r hr _ _ q3
  have q5 := lgb_append ['"', ',', ' ', '"', 'r', 'e', 's', 'o', 'u', 'r', 'c', 'e', '"', ':',
    ' ', '"'] (by decide) _ _ q4
  have q6 := lgb_append a ha _ _ q5
  have q7 := lgb_append ['"', ',', ' ', '"', 'a', 'c', 't', 'i', 'o', 'n', '"', ':', ' ', '"']
    (by decide) _ _ q6
  have q8 := lgb_append d hd _ _ q7
  have q9 := lgb_append ['"', 't', 'o', 'o', 'l', '_', 'c', 'a', 'l', 'l', 's', '"', ':', ' ',
    '[', '\x7b', '"', 'n', 'a', 'm', 'e', '"', ':', ' ', '"', 'i', 'n', 'f', 'r', 'a', '_',
    'c', 'o', 'm', 'm', 'a', 'n', 'd', '"', ',', ' ', '"', 'a', 'r', 'g', 'u', 'm',
    'e', 'n', 't', 's', '"', ':', ' ', '\x7b', '"', 'd', 'o', 'm', 'a', 'i', 'n',
    '"', ':', ' ', '"'] (by decide) _ _ q8
  have e1 : "\x7b\"tool_calls\": [\x7b\"name\": \"infra_command\", \"arguments\": \x7b\"domain\": \"".data
      = ['\x7b', '"', 't', 'o', 'o', 'l', '_', 'c', 'a', 'l', 'l', 's', '"', ':', ' ', '[',
         '\x7b', '"', 'n', 'a', 'm', 'e', '"', ':', ' ', '"', 'i', 'n', 'f', 'r', 'a', '_',
         'c', 'o', 'm', 'm', 'a', 'n', 'd', '"', ',', ' ', '"', 'a', 'r', 'g', 'u', 'm',
         'e', 'n', 't', 's', '"', ':', ' ', '\x7b', '"', 'd', 'o', 'm', 'a', 'i', 'n',
         '"', ':', ' ', '"'] := rfl
  have e2 : "\", \"action\": \"".data
      = ['"', ',', ' ', '"', 'a', 'c', 't', 'i', 'o', 'n', '"', ':', ' ', '"'] := rfl
  have e3 : "\", \"resource\": \"".data
      = ['"', ',', ' ', '"', 'r', 'e', 's', 'o', 'u', 'r', 'c', 'e', '"', ':', ' ', '"'] := rfl
  have e4 : "\", \"name\": \"".data
      = ['"', ',', ' ', '"', 'n', 'a', 'm', 'e', '"', ':', ' ', '"'] := rfl
  have e5 : "\"\x7d\x7d]\x7d".data = ['"', '\x7d', '\x7d', ']', '\x7d'] := rfl
  simp only [List.cons_append, List.nil_append, List.append_assoc] at q9
  rw [pat1At]
  rw [skipPyWs_not_ws 'j' (by decide)]
  simp only [encChars, e1, e2, e3, e4, e5, List.cons_append, List.nil_append,
    List.append_assoc, skipPyWs_nl]
  rw [skipPyWs_not_ws '\x7b' (by decide)]
  simp only [q9, Option.map_some']

theorem findCodeMatch_content (d a r n : List Char)
    (hd : ∀ c ∈ d, c ≠ '\x7d') (ha : ∀ c ∈ a, c ≠ '\x7d')
    (hr : ∀ c ∈ r, c ≠ '\x7d') (hn : ∀ c ∈ n, c ≠ '\x7d') :
    findCodeMatch ('`' :: '`' :: '`' :: 'j' :: 's' :: 'o' :: 'n' :: '\n' ::
        (encChars d a r n ++ '\n' :: '`' :: '`' :: '`' :: []))
      = some (encChars d a r n) := by
  have hp := pat1At_content d a r n hd ha hr hn
  rw [findCodeMatch, reSearch, hp]

/-- The canonical arguments object's characters. -/
def argsEncChars (d a r n : List Char) : List Char :=
  "\x7b\"domain\": \"".data ++ d ++ "\", \"action\": \"".data ++ a
    ++ "\", \"resource\": \"".data ++ r ++ "\", \"name\": \"".data ++ n ++ "\"\x7d".data

theorem parse_argsEncChars (f : Nat) (D A R N : String)
    (hD : safeChars D.data) (hA : safeChars A.data)
    (hR : safeChars R.data) (hN : safeChars N.data) :
    parseVal (f + 6) (argsEncChars D.data A.data R.data N.data)
      = some (encodeArguments D A R N, []) := by
  have m1 := parseMembers_str_last f ['n', 'a', 'm', 'e'] N.data [] (by decide) hN
  have m2 := parseMembers_str_cons (f + 1) ['r', 'e', 's', 'o', 'u', 'r', 'c', 'e'] R.data
    _ _ _ (by decide) hR m1
  have m3 := parseMembers_str_cons (f + 2) ['a', 'c', 't', 'i', 'o', 'n'] A.data
    _ _ _ (by decide) hA m2
  have m4 := parseMembers_str_cons (f + 3) ['d', 'o', 'm', 'a', 'i', 'n'] D.data
    _ _ _ (by decide) hD m3
  have a1 := parseVal_dict (f + 4) '"' _ _ _ (by decide) (by decide) m4
  have f1 : "\x7b\"domain\": \"".data
      = ['\x7b', '"', 'd', 'o', 'm', 'a', 'i', 'n', '"', ':', ' ', '"'] := rfl
  have e2 : "\", \"action\": \"".data
      = ['"', ',', ' ', '"', 'a', 'c', 't', 'i', 'o', 'n', '"', ':', ' ', '"'] := rfl
  have e3 : "\", \"resource\": \"".data
      = ['"', ',', ' ', '"', 'r', 'e', 's', 'o', 'u', 'r', 'c', 'e', '"', ':', ' ', '"'] := rfl
  have e4 : "\", \"name\": \"".data
      = ['"', ',', ' ', '"', 'n', 'a', 'm', 'e', '"', ':', ' ', '"'] := rfl
  have e6 : "\"\x7d".data = ['"', '\x7d'] := rfl
  simp only [List.cons_append, List.nil_append] at a1
  simp only [argsEncChars, f1, e2, e3, e4, e6, List.cons_append, List.nil_append,
    List.append_assoc, encodeArguments]
  exact a1

theorem dumpsL_args (D A R N : String) (hD : safeChars D.data) (hA : safeChars A.data)
    (hR : safeChars R.data) (hN : safeChars N.data) :
    dumpsL (encodeArguments D A R N) = argsEncChars D.data A.data R.data N.data := by
  have fD := flatMap_escape_safe D.data hD
  have fA := flatMap_escape_safe A.data hA
  have fR := flatMap_escape_safe R.data hR
  have fN := flatMap_escape_safe N.data hN
  have k5 : "domain".data.flatMap escapeJsonChar = "domain".data := by decide
  have k6 : "action".data.flatMap escapeJsonChar = "action".data := by decide
  have k7 : "resource".data.flatMap escapeJsonChar = "resource".data := by decide
  have k2 : "name".data.flatMap escapeJsonChar = "name".data := by decide
  have g5 : "domain".data = ['d', 'o', 'm', 'a', 'i', 'n'] := rfl
  have g6 : "action".data = ['a', 'c', 't', 'i', 'o', 'n'] := rfl
  have g7 : "resource".data = ['r', 'e', 's', 'o', 'u', 'r', 'c', 'e'] := rfl
  have g2 : "name".data = ['n', 'a', 'm', 'e'] := rfl
  have f1 : "\x7b\"domain\": \"".data
      = ['\x7b', '"', 'd', 'o', 'm', 'a', 'i', 'n', '"', ':', ' ', '"'] := rfl
  have e2 : "\", \"action\": \"".data
      = ['"', ',', ' ', '"', 'a', 'c', 't', 'i', 'o', 'n', '"', ':', ' ', '"'] := rfl
  have e3 : "\", \"resource\": \"".data
      = ['"', ',', ' ', '"', 'r', 'e', 's', 'o', 'u', 'r', 'c', 'e', '"', ':', ' ', '"'] := rfl
  have e4 : "\", \"name\": \"".data
      = ['"', ',', ' ', '"', 'n', 'a', 'm', 'e', '"', ':', ' ', '"'] := rfl
  have e6 : "\"\x7d".data = ['"', '\x7d'] := rfl
  simp only [encodeArguments, dumpsL, dumpsMembers, dumpsItems, fD, fA, fR, fN,
    k5, k6, k7, k2, g5, g6, g7, g2, argsEncChars, f1, e2, e3, e4, e6,
    List.cons_append, List.nil_append, List.append_assoc, List.singleton_append]

theorem dumpsL_enc (D A R N : String) (hD : safeChars D.data) (hA : safeChars A.data)
    (hR : safeChars R.data) (hN : safeChars N.data) :
    dumpsL (docVal D A R N) = encChars D.data A.data R.data N.data := by
  have fD := flatMap_escape_safe D.data hD
  have fA := flatMap_escape_safe A.data hA
  have fR := flatMap_escape_safe R.data hR
  have fN := flatMap_escape_safe N.data hN
  have k1 : "tool_calls".data.flatMap escapeJsonChar = "tool_calls".data := by decide
  have k2 : "name".data.flatMap escapeJsonChar = "name".data := by decide
  have k3 : "arguments".data.flatMap escapeJsonChar = "arguments".data := by decide
  have k4 : "infra_command".data.flatMap escapeJsonChar = "infra_command".data := by decide
  have k5 : "domain".data.flatMap escapeJsonChar = "domain".data := by decide
  have k6 : "action".data.flatMap escapeJsonChar = "action".data := by decide
  have k7 : "resource".data.flatMap escapeJsonChar = "resource".data := by decide
  have g1 : "tool_calls".data = ['t', 'o', 'o', 'l', '_', 'c', 'a', 'l', 'l', 's'] := rfl
  have g2 : "name".data = ['n', 'a', 'm', 'e'] := rfl
  have g3 : "arguments".data = ['a', 'r', 'g', 'u', 'm', 'e', 'n', 't', 's'] := rfl
  have g4 : "infra_command".data
      = ['i', 'n', 'f', 'r', 'a', '_', 'c', 'o', 'm', 'm', 'a', 'n', 'd'] := rfl
  have g5 : "domain".data = ['d', 'o', 'm', 'a', 'i', 'n'] := rfl
  have g6 : "action".data = ['a', 'c', 't', 'i', 'o', 'n'] := rfl
  have g7 : "resource".data = ['r', 'e', 's', 'o', 'u', 'r', 'c', 'e'] := rfl
  have e1 : "\x7b\"tool_calls\": [\x7b\"name\": \"infra_command\", \"arguments\": \x7b\"domain\": \"".data
      = ['\x7b', '"', 't', 'o', 'o', 'l', '_', 'c', 'a', 'l', 'l', 's', '"', ':', ' ', '[',
         '\x7b', '"', 'n', 'a', 'm', 'e', '"', ':', ' ', '"', 'i', 'n', 'f', 'r', 'a', '_',
         'c', 'o', 'm', 'm', 'a', 'n', 'd', '"', ',', ' ', '"', 'a', 'r', 'g', 'u', 'm',
         'e', 'n', 't', 's', '"', ':', ' ', '\x7b', '"', 'd', 'o', 'm', 'a', 'i', 'n',
         '"', ':', ' ', '"'] := rfl
  have e2 : "\", \"action\": \"".data
      = ['"', ',', ' ', '"', 'a', 'c', 't', 'i', 'o', 'n', '"', ':', ' ', '"'] := rfl
  have e3 : "\", \"resource\": \"".data
      = ['"', ',', ' ', '"', 'r', 'e', 's', 'o', 'u', 'r', 'c', 'e', '"', ':', ' ', '"'] := rfl
  have e4 : "\", \"name\": \"".data
      = ['"', ',', ' ', '"', 'n', 'a', 'm', 'e', '"', ':', ' ', '"'] := rfl
  have e5 : "\"\x7d\x7d]\x7d".data = ['"', '\x7d', '\x7d', ']', '\x7d'] := rfl
  simp only [docVal, encodeArguments, dumpsL, dumpsMembers, dumpsItems,
    fD, fA, fR, fN, k1, k2, k3, k4, k5, k6, k7, g1, g2, g3, g4, g5, g6, g7,
    encChars, e1, e2, e3, e4, e5,
    List.cons_append, List.nil_append, List.append_assoc, List.singleton_append]

theorem loads_encChars (D A R N : String) (hD : safeChars D.data) (hA : safeChars A.data)
    (hR : safeChars R.data) (hN : safeChars N.data) :
    loads (String.mk (encChars D.data A.data R.data N.data)) = some (docVal D A R N) := by
  have h12 : 12 ≤ (encChars D.data A.data R.data N.data).length := by
    have hl : ("\x7b\"tool_calls\": [\x7b\"name\": \"infra_command\", \"arguments\": \x7b\"domain\": \"".data).length = 67 := rfl
    simp only [encChars, List.length_append, hl]
    omega
  have hm : (String.mk (encChars D.data A.data R.data N.data)).length + 1
      = ((encChars D.data A.data R.data N.data).length - 12) + 13 := by
    have : (String.mk (encChars D.data A.data R.data N.data)).length
        = (encChars D.data A.data R.data N.data).length := rfl
    omega
  have hp := parse_encChars ((encChars D.data A.data R.data N.data).length - 12) D A R N hD hA hR hN
  rw [loads]
  rw [show (String.mk (encChars D.data A.data R.data N.data)).data
      = encChars D.data A.data R.data N.data from rfl, hm, hp]
  rfl

theorem loads_args (D A R N : String) (hD : safeChars D.data) (hA : safeChars A.data)
    (hR : safeChars R.data) (hN : safeChars N.data) :
    loads (dumps (encodeArguments D A R N)) = some (encodeArguments D A R N) := by
  have hda := dumpsL_args D A R N hD hA hR hN
  have h5 : 5 ≤ (argsEncChars D.data A.data R.data N.data).length := by
    have hl : ("\x7b\"domain\": \"".data).length = 12 := rfl
    simp only [argsEncChars, List.length_append, hl]
    omega
  have hm : (dumps (encodeArguments D A R N)).length + 1
      = ((argsEncChars D.data A.data R.data N.data).length - 5) + 6 := by
    have h1 : (dumps (encodeArguments D A R N)).length
        = (dumpsL (encodeArguments D A R N)).length := rfl
    rw [h1, hda]
    omega
  have hp := parse_argsEncChars ((argsEncChars D.data A.data R.data N.data).length - 5)
    D A R N hD hA hR hN
  have hd : (dumps (encodeArguments D A R N)).data
      = argsEncChars D.data A.data R.data N.data := hda
  rw [loads, hd, hm, hp]
  rfl

theorem safeChars_no_brace (s : List Char) (h : safeChars s) : ∀ c ∈ s, c ≠ '\x7d' :=
  fun c hc => (h c hc).2.2.2.2.2

/-- C5 amended: for every Command Descriptor whose domain, action, resource
and name consist of fence-safe characters (printable ASCII other than quote,
backslash, backtick and closing brace), encoding it into a fenced
`tool_calls` JSON block and running the Verify stage extraction yields
exactly one forwarded `infra_command` tool call whose JSON arguments decode
back to the original four fields. -/
theorem verification_roundtrip (D A R N : String)
    (hD : safeChars D.data) (hA : safeChars A.data)
    (hR : safeChars R.data) (hN : safeChars N.data) :
    verificationExtract (encodeToolCallsBlock D A R N)
        = some [⟨"call_1", .str "infra_command", dumps (encodeArguments D A R N)⟩]
      ∧ loads (dumps (encodeArguments D A R N)) = some (encodeArguments D A R N) := by
  refine ⟨?_, loads_args D A R N hD hA hR hN⟩
  have hdata : (encodeToolCallsBlock D A R N).data
      = '`' :: '`' :: '`' :: 'j' :: 's' :: 'o' :: 'n' :: '\n' ::
          (encChars D.data A.data R.data N.data ++ '\n' :: '`' :: '`' :: '`' :: []) := by
    have h0 : encodeToolCallsBlock D A R N
        = "```json\n" ++ dumps (docVal D A R N) ++ "\n```" := rfl
    have h1 : ("```json\n" ++ dumps (docVal D A R N) ++ "\n```").data
        = "```json\n".data ++ (dumps (docVal D A R N)).data ++ "\n```".data := by
      simp [String.data_append]
    have h2 : (dumps (docVal D A R N)).data = encChars D.data A.data R.data N.data :=
      dumpsL_enc D A R N hD hA hR hN
    have h3 : "```json\n".data = ['`', '`', '`', 'j', 's', 'o', 'n', '\n'] := rfl
    have h4 : "\n```".data = ['\n', '`', '`', '`'] := rfl
    rw [h0, h1, h2, h3, h4]
    simp [List.append_assoc]
  have hfind : findCodeMatch (encodeToolCallsBlock D A R N).data
      = some (encChars D.data A.data R.data N.data) := by
    rw [hdata]
    exact findCodeMatch_content D.data A.data R.data N.data
      (safeChars_no_brace D.data hD) (safeChars_no_brace A.data hA)
      (safeChars_no_brace R.data hR) (safeChars_no_brace N.data hN)
  have hload := loads_encChars D A R N hD hA hR hN
  rw [verificationExtract, hfind]
  simp only [hload]
  rfl

/-- Witness for `verification_roundtrip` at a concrete descriptor. -/
theorem verification_roundtrip_witness :
    verificationExtract (encodeToolCallsBlock "kubernetes" "restart" "deployment" "api-server")
        = some [⟨"call_1", .str "infra_command",
            dumps (encodeArguments "kubernetes" "restart" "deployment" "api-server")⟩]
      ∧ loads (dumps (encodeArguments "kubernetes" "restart" "deployment" "api-server"))
        = some (encodeArguments "kubernetes" "restart" "deployment" "api-server") :=
  verification_roundtrip "kubernetes" "restart" "deployment" "api-server"
    (by decide) (by decide) (by decide) (by decide)

/-! ## The command router (backend/app/core/engine.py, route_infra_command)

The router is embedded as a total function over a `Backend` oracle that
supplies every external interaction: the Kubernetes health probe and
JSON-RPC posts, the three MCP client acquisitions (which raise on a failed
probe, modelled as `Except`), the MCP clients\x27 tool invocations (which
catch all transport errors internally and return error dictionaries, so
they are modelled as total), and the network scanner (whose own body
catches everything, but which is invoked through a decorator whose call
convention is outside this model, so it is given as `Except`). Python
exceptions are `Except.error` carrying the exception text; the router\x27s
top-level `except Exception` converts them to
`"Error executing command: " ++ e`. A trace of attempted backend
interactions is returned alongside the result so that claims about *which*
calls are attempted are statable. -/

/-- One attempted backend interaction of the router. -/
inductive Call
  | kubeHealthCheck
  | kubePost (tool : String) (args : PyDict)
  | promAcq
  | promCall (tool : String) (params : PyObj)
  | grafAcq
  | grafCall (tool : String) (args : PyDict)
  | esxiAcq
  | esxiCallM (method : String) (args : PyDict)
  | netScanCall (subnet : PyObj)

/-- The external world as the router sees it. -/
structure Backend where
  /-- `GET {server}/health` (line 156-158): exception text, or HTTP status. -/
  kubeHealth : Except String Int
  /-- `POST {server}/jsonrpc` with a `tools/call` payload (lines 200-209,
  374-386): exception text, or (status code, parsed JSON body). -/
  kubePost : String → PyDict → Except String (Int × PyObj)
  /-- `get_prometheus_mcp_client()`: raises on a failed probe. -/
  promAcquire : Except String Unit
  /-- The keys of the prometheus client\x27s `available_tools`. -/
  promTools : List String
  /-- `client.execute_tool(tool, params)`: catches internally, total. -/
  promExec : String → PyObj → PyObj
  /-- `get_grafana_mcp_client()`: raises on a failed probe. -/
  grafAcquire : Except String Unit
  /-- `client.execute_tool(tool, args)`: catches internally, total. -/
  grafExec : String → PyDict → PyObj
  /-- `get_esxi_mcp_client()`: raises on a failed probe. -/
  esxiAcquire : Except String Unit
  /-- `client.call_method(method, args)`: catches internally, total. -/
  esxiCall : String → PyDict → PyObj
  /-- `network_discovery(subnet=subnet)`. -/
  netScan : PyObj → Except String String

/-- Python `type(v).__name__` for the embedded values. -/
def pyTypeName : PyObj → String
  | .none => "NoneType"
  | .bool _ => "bool"
  | .int _ => "int"
  | .str _ => "str"
  | .list _ => "list"
  | .dict _ => "dict"

/-- ASCII letter or digit, as matched by `[a-zA-Z0-9]`. -/
def isAsciiAlnum (c : Char) : Bool :=
  ('a' ≤ c && c ≤ 'z') || ('A' ≤ c && c ≤ 'Z') || ('0' ≤ c && c ≤ '9')

/-- `re.match(r'^[a-zA-Z0-9]+$', s)` as a Boolean (line 484): one or more
ASCII alphanumerics; `$` also matches just before one trailing newline. -/
def uidMatch (s : List Char) : Bool :=
  let core := if s.getLast? == some '\n' then s.dropLast else s
  !core.isEmpty && core.all isAsciiAlnum

/-- Python `int(v)` (line 227), for the values this model builds: the full
string lexical rule (whitespace, underscores) is abstracted to an optional
sign plus digits, and the error text to Python\x27s message shape. -/
def pyVToInt : PyObj → Except String Int
  | .int n => .ok n
  | .bool b => .ok (if b then 1 else 0)
  | .str s =>
    (match s.data with
     | '-' :: (d :: ds) =>
       if (d :: ds).all Char.isDigit then .ok (-(String.mk (d :: ds)).toNat!) else
         .error ("invalid literal for int() with base 10: " ++ pyRepr (.str s))
     | d :: ds =>
       if (d :: ds).all Char.isDigit then .ok ((String.mk (d :: ds)).toNat!) else
         .error ("invalid literal for int() with base 10: " ++ pyRepr (.str s))
     | [] => .error ("invalid literal for int() with base 10: " ++ pyRepr (.str s)))
  | v => .error ("int() argument must be a string, a bytes-like object or a real number, not \x27"
      ++ pyTypeName v ++ "\x27")

/-- Python iteration (`for x in v`): lists yield elements, dicts their keys,
strings their characters; anything else raises `TypeError`. -/
def pyIter : PyObj → Except String (List PyObj)
  | .list xs => .ok xs
  | .dict d => .ok (d.map fun kv => .str kv.1)
  | .str s => .ok (s.data.map fun c => .str (String.mk [c]))
  | v => .error ("\x27" ++ pyTypeName v ++ "\x27 object is not iterable")

/-- The guarded MCP-response drill-down used by the grafana branches
(lines 443-452, 503-510): `result["result"]["content"][0]["text"]` with an
`isinstance`/membership check at every step; `Option.none` when any check
fails. -/
def mcpText (result : PyObj) : Option PyObj :=
  match result with
  | .dict d =>
    (match dlookup d "result" with
     | some (.dict md) =>
       (match dlookup md "content" with
        | some (.list (c0 :: _)) =>
          (match c0 with
           | .dict cd => dlookup cd "text"
           | _ => Option.none)
        | _ => Option.none)
     | _ => Option.none)
  | _ => Option.none

/-- `s.startswith(p)` on the embedded strings. -/
def strStartsWith (s p : String) : Bool := p.data.isPrefixOf s.data

/-- The dashboard-title scan (lines 513-519): first element that is a dict
whose lowercased `title` contains the lowercased name; a non-string `title`
raises `AttributeError` at `.lower()`. -/
def findDashboard (name : String) : List PyObj → Except String (Option PyDict)
  | [] => .ok Option.none
  | d :: rest =>
    match d with
    | .dict dd =>
      (match dgetD dd "title" (.str "") with
       | .str ts =>
         if strContains (lowerStr ts) (lowerStr name) then .ok (some dd)
         else findDashboard name rest
       | t => .error ("\x27" ++ pyTypeName t ++ "\x27 object has no attribute \x27lower\x27"))
    | _ => findDashboard name rest

/-- The kubernetes `resource_map.get(resource, resource)` (lines 167-180). -/
def resourceMapGet (r : PyObj) : PyObj :=
  if pyEq r (.str "pods") || pyEq r (.str "pod") then .str "pods"
  else if pyEq r (.str "deployments") || pyEq r (.str "deployment") then .str "deployments"
  else if pyEq r (.str "services") || pyEq r (.str "service") then .str "services"
  else if pyEq r (.str "nodes") || pyEq r (.str "node") then .str "nodes"
  else if pyEq r (.str "namespaces") || pyEq r (.str "namespace") then .str "namespaces"
  else r

/-- After the health-check `async with` block exits, the local `client` is
the *closed httpx client*, which has no `call_method` attribute: every
kubernetes action that reaches `client.call_method(...)` (describe, delete,
scale, restart, logs, exec, create, apply, patch, rollout, context, generic,
node_management, the helm actions, explain, list_api_resources — lines
211-360) raises this `AttributeError`, which only the router\x27s top-level
handler catches. -/
def staleClientMsg : String :=
  "\x27AsyncClient\x27 object has no attribute \x27call_method\x27"

/-- The kubernetes actions that reach the stale `client.call_method` with no
other possible exception on the way. -/
def kubeStaleAction (action : PyObj) : Bool :=
  ["describe", "delete", "restart", "logs", "exec", "create", "apply", "patch",
   "rollout", "context", "generic", "node_management", "install_helm",
   "upgrade_helm", "uninstall_helm", "explain", "list_api_resources"].any
    fun a => pyEq action (.str a)

/-- The `kubectl_get` argument dict built by the kubernetes `list`/`get`
branch (lines 185-189): the mapped resource type, plus `namespace` exactly
when the descriptor\x27s namespace differs from `"default"`. -/
def kubeGetParams (cmd : PyDict) : PyDict :=
  let nsv := dgetD cmd "namespace" (.str "default")
  if !pyEq nsv (.str "default") then
    [("resourceType", resourceMapGet (dgetD cmd "resource" .none)), ("namespace", nsv)]
  else [("resourceType", resourceMapGet (dgetD cmd "resource" .none))]

/-- The `domain == "kubernetes"` branch (lines 149-386). -/
def kubeRoute (cmd : PyDict) (o : Backend) : List Call × Except String (Option String) :=
  let action := dgetD cmd "action" .none
  match o.kubeHealth with
  | .error e =>
    ([.kubeHealthCheck], .ok (some ("Error: Kubernetes MCP server not accessible: " ++ e)))
  | .ok code =>
    if code = 200 then
      if pyEq action (.str "list") || pyEq action (.str "get") then
        match o.kubePost "kubectl_get" (kubeGetParams cmd) with
        | .error e =>
          ([.kubeHealthCheck, .kubePost "kubectl_get" (kubeGetParams cmd)],
           .ok (some ("Error: Failed to connect to Kubernetes MCP server: " ++ e)))
        | .ok (sc, body) =>
          ([.kubeHealthCheck, .kubePost "kubectl_get" (kubeGetParams cmd)],
           .ok (some (if sc = 200 then dumps body
             else "Error: HTTP " ++ toString sc ++ " from Kubernetes MCP server")))
      else if pyEq action (.str "ping") then
        match o.kubePost "ping" [] with
        | .error e =>
          ([.kubeHealthCheck, .kubePost "ping" []],
           .ok (some ("Error: Failed to connect to Kubernetes MCP server: " ++ e)))
        | .ok (sc, body) =>
          ([.kubeHealthCheck, .kubePost "ping" []],
           .ok (some (if sc = 200 then dumps body
             else "Error: HTTP " ++ toString sc ++ " from Kubernetes MCP server")))
      else if pyEq action (.str "scale") then
        match pyVToInt (dgetD cmd "replicas" (.int 1)) with
        | .error e => ([.kubeHealthCheck], .error e)
        | .ok _ => ([.kubeHealthCheck], .error staleClientMsg)
      else if kubeStaleAction action then ([.kubeHealthCheck], .error staleClientMsg)
      else ([.kubeHealthCheck], .ok Option.none)
    else
      ([.kubeHealthCheck],
       .ok (some ("Error: Kubernetes MCP server health check failed (status "
         ++ toString code ++ ")")))

/-- The `domain == "prometheus"` branch (lines 388-420). -/
def promRoute (cmd : PyDict) (o : Backend) : List Call × Except String (Option String) :=
  let action := dgetD cmd "action" .none
  let query := dgetD cmd "query" .none
  match o.promAcquire with
  | .error e => ([.promAcq], .error e)
  | .ok _ =>
    if pyEq action (.str "query") then
      if !pyTruthy query then
        ([.promAcq], .ok (some "Error: Missing required parameter \x27query\x27 for Prometheus query"))
      else
        ([.promAcq, .promCall "execute_query" (.dict [("query", query)])],
         .ok (some (dumps (o.promExec "execute_query" (.dict [("query", query)])))))
    else if pyEq action (.str "health") then
      ([.promAcq, .promCall "health_check" (.dict [])],
       .ok (some (dumps (o.promExec "health_check" (.dict [])))))
    else if pyEq action (.str "list_metrics") then
      let params : PyDict :=
        (if pyTruthy (dgetD cmd "limit" .none) then [("limit", dgetD cmd "limit" .none)] else [])
          ++ (if pyTruthy (dgetD cmd "filter_pattern" .none) then
                [("filter_pattern", dgetD cmd "filter_pattern" .none)] else [])
      ([.promAcq, .promCall "list_metrics" (.dict params)],
       .ok (some (dumps (o.promExec "list_metrics" (.dict params)))))
    else
      match action with
      | .str a =>
        if o.promTools.contains a then
          ([.promAcq, .promCall a (.dict cmd)], .ok (some (dumps (o.promExec a (.dict cmd)))))
        else
          ([.promAcq],
           .ok (some ("Error: Unsupported Prometheus action: " ++ a ++ ". Available actions: "
             ++ pyStr (.list (o.promTools.map .str)))))
      | av =>
        ([.promAcq],
         .ok (some ("Error: Unsupported Prometheus action: " ++ pyStr av ++ ". Available actions: "
           ++ pyStr (.list (o.promTools.map .str)))))

/-- The uniform Grafana unavailability rewrite (lines 440, 490, 499). -/
def grafNotAccessibleMsg : String :=
  "Error: Grafana MCP server is not accessible. Please check server configuration and connectivity."

/-- `json.loads` on a value that is not a string raises `TypeError` (lines
452, 510: the except clause catches only decode/Key/Index errors). -/
def loadsTypeErrMsg (v : PyObj) : String :=
  "the JSON object must be str, bytes or bytearray, not " ++ pyTypeName v

/-- A `json.JSONDecodeError` reaching an except clause that interpolates it;
Python\x27s message is position-dependent, abstracted to a fixed label. -/
def jsonDecodeErrLabel : String := "Expecting value"

/-- The `domain == "grafana"` branch (lines 422-535). -/
def grafRoute (cmd : PyDict) (o : Backend) : List Call × Except String (Option String) :=
  let action := dgetD cmd "action" .none
  let resource := dgetD cmd "resource" .none
  let name := dgetD cmd "name" .none
  match o.grafAcquire with
  | .error e => ([.grafAcq], .error e)
  | .ok _ =>
    if pyEq action (.str "list") then
      if pyEq resource (.str "dashboards") || pyEq resource (.str "dashboard") then
        let r := o.grafExec "list_dashboards" []
        let tr : List Call := [.grafAcq, .grafCall "list_dashboards" []]
        if is_server_error r then (tr, .ok (some grafNotAccessibleMsg))
        else
          match mcpText r with
          | some (.str t) =>
            (match loads t with
             | some v =>
               -- `print(f"...{len(dashboard_data)}...")`: len of a non-sized
               -- parse result raises TypeError past the narrow except clause.
               (match v with
                | .list _ => (tr, .ok (some (dumps v)))
                | .dict _ => (tr, .ok (some (dumps v)))
                | .str _ => (tr, .ok (some (dumps v)))
                | _ => (tr, .error ("object of type \x27" ++ pyTypeName v ++ "\x27 has no len()")))
             | Option.none => (tr, .ok (some (dumps r))))
          | some tv => (tr, .error (loadsTypeErrMsg tv))
          | Option.none => (tr, .ok (some (dumps r)))
      else if pyEq resource (.str "datasources") || pyEq resource (.str "datasource") then
        let r := o.grafExec "list_datasources" []
        let tr : List Call := [.grafAcq, .grafCall "list_datasources" []]
        match mcpText r with
        | some (.str t) =>
          (match loads t with
           | some v => (tr, .ok (some (dumps v)))
           | Option.none => (tr, .ok (some (dumps r))))
        | some tv => (tr, .error (loadsTypeErrMsg tv))
        | Option.none => (tr, .ok (some (dumps r)))
      else ([.grafAcq], .ok Option.none)
    else if pyEq action (.str "get") then
      if pyEq resource (.str "dashboards") || pyEq resource (.str "dashboard") then
        match name with
        | .str ns =>
          if uidMatch ns.data then
            let r := o.grafExec "get_dashboard" [("uid", .str ns)]
            let tr : List Call := [.grafAcq, .grafCall "get_dashboard" [("uid", .str ns)]]
            if is_server_error r then (tr, .ok (some grafNotAccessibleMsg))
            else (tr, .ok (some (dumps r)))
          else
            let lr := o.grafExec "list_dashboards" []
            let tr : List Call := [.grafAcq, .grafCall "list_dashboards" []]
            if is_server_error lr then (tr, .ok (some grafNotAccessibleMsg))
            else
              match mcpText lr with
              | some (.str t) =>
                (match loads t with
                 | some v =>
                   (match pyIter v with
                    | .error e => (tr, .error e)
                    | .ok items =>
                      match findDashboard ns items with
                      | .error e => (tr, .error e)
                      | .ok (some dd) =>
                        if pyTruthy (.dict dd) then
                          let uid := dgetD dd "uid" .none
                          (tr ++ [.grafCall "get_dashboard" [("uid", uid)]],
                           .ok (some (dumps (o.grafExec "get_dashboard" [("uid", uid)]))))
                        else
                          (tr, .ok (some ("Error: No dashboard found with title containing \x27"
                            ++ ns ++ "\x27")))
                      | .ok Option.none =>
                        (tr, .ok (some ("Error: No dashboard found with title containing \x27"
                          ++ ns ++ "\x27"))))
                 | Option.none =>
                   (tr, .ok (some ("Error: Failed to search dashboards by name: "
                     ++ jsonDecodeErrLabel))))
              | some tv => (tr, .error (loadsTypeErrMsg tv))
              | Option.none =>
                (tr, .ok (some "Error: Could not retrieve dashboard list for name search"))
        | _ => ([.grafAcq], .error "expected string or bytes-like object")
      else ([.grafAcq], .ok Option.none)
    else ([.grafAcq], .ok Option.none)

/-- The capability-gap message for VM info/status (line 556). -/
def vmwareCapGapMsg : String :=
  "Error: VMware MCP server does not support detailed VM info/status operations. Available operations: list, create, clone, power_on, power_off, delete."

/-- The `domain == "vmware"` branch (lines 537-618). -/
def esxiRoute (cmd : PyDict) (o : Backend) : List Call × Except String (Option String) :=
  let action := dgetD cmd "action" .none
  let resource := dgetD cmd "resource" .none
  let name := dgetD cmd "name" .none
  match o.esxiAcquire with
  | .error e => ([.esxiAcq], .error e)
  | .ok _ =>
    if pyEq action (.str "list") then
      if pyEq resource (.str "vms") || pyEq resource (.str "vm") then
        let r := o.esxiCall "listVMs" []
        let tr : List Call := [.esxiAcq, .esxiCallM "listVMs" []]
        if is_server_error r then
          (tr, .ok (some "Error: VMware MCP server is not accessible. Please check server configuration and connectivity."))
        else (tr, .ok (some (dumps r)))
      else ([.esxiAcq], .ok Option.none)
    else if pyEq action (.str "get") || pyEq action (.str "status")
        || pyEq action (.str "info") then
      if pyEq resource (.str "vms") || pyEq resource (.str "vm") then
        ([.esxiAcq], .ok (some vmwareCapGapMsg))
      else ([.esxiAcq], .ok Option.none)
    else if pyEq action (.str "create") then
      let datastore := dgetD cmd "datastore" .none
      let network := dgetD cmd "network" .none
      let params :=
        [("name", name), ("cpu", dgetD cmd "cpu" (.int 2)),
         ("memory", dgetD cmd "memory" (.int 4096))]
          ++ (match datastore with | PyObj.none => [] | v => [("datastore", v)])
          ++ (match network with | PyObj.none => [] | v => [("network", v)])
      ([.esxiAcq, .esxiCallM "createVM" params],
       .ok (some (dumps (o.esxiCall "createVM" params))))
    else if pyEq action (.str "clone") then
      let params :=
        [("template_name", dgetD cmd "template_name" name),
         ("new_name", dgetD cmd "new_name" (dgetD cmd "target_name" .none))]
      ([.esxiAcq, .esxiCallM "cloneVM" params],
       .ok (some (dumps (o.esxiCall "cloneVM" params))))
    else if pyEq action (.str "power_on") then
      ([.esxiAcq, .esxiCallM "powerOn" [("name", name)]],
       .ok (some (dumps (o.esxiCall "powerOn" [("name", name)]))))
    else if pyEq action (.str "power_off") then
      ([.esxiAcq, .esxiCallM "powerOff" [("name", name)]],
       .ok (some (dumps (o.esxiCall "powerOff" [("name", name)]))))
    else if pyEq action (.str "delete") then
      ([.esxiAcq, .esxiCallM "deleteVM" [("name", name)]],
       .ok (some (dumps (o.esxiCall "deleteVM" [("name", name)]))))
    else if pyEq action (.str "get_stats") then
      ([.esxiAcq],
       .ok (some (dumps (.dict
         [("vm_name", name), ("cpu_usage_mhz", .int 2048), ("memory_usage_mb", .int 2048),
          ("storage_usage_gb", .int 25), ("network_rx_mbps", .int 150),
          ("network_tx_mbps", .int 85)]))))
    else if pyEq action (.str "snapshots") then
      if pyEq resource (.str "vms") || pyEq resource (.str "vm") then
        ([.esxiAcq, .esxiCallM "get_vm_snapshots" [("vm_name", name)]],
         .ok (some (dumps (o.esxiCall "get_vm_snapshots" [("vm_name", name)]))))
      else ([.esxiAcq], .ok Option.none)
    else if pyEq action (.str "create_snapshot") then
      let description := dgetD cmd "description" .none
      let params :=
        [("vm_name", name), ("snapshot_name", dgetD cmd "snapshot_name" .none)]
          ++ (if pyTruthy description then [("description", description)] else [])
      ([.esxiAcq, .esxiCallM "create_snapshot" params],
       .ok (some (dumps (o.esxiCall "create_snapshot" params))))
    else ([.esxiAcq], .ok Option.none)

/-- The `domain == "network"` branch (lines 620-624). -/
def netRoute (cmd : PyDict) (o : Backend) : List Call × Except String (Option String) :=
  let action := dgetD cmd "action" .none
  if pyEq action (.str "scan") then
    let subnet := dgetD cmd "subnet" (.str "192.168.1.0/24")
    match o.netScan subnet with
    | .ok s => ([.netScanCall subnet], .ok (some s))
    | .error e => ([.netScanCall subnet], .error e)
  else ([], .ok Option.none)

/-- The body of the router\x27s `try` block: `.ok (some s)` is an explicit
`return s`, `.ok none` is falling through to the
`Command not supported` fallback, `.error e` is an uncaught exception. -/
def routeInner (cmd : PyDict) (o : Backend) : List Call × Except String (Option String) :=
  let domain := dgetD cmd "domain" .none
  if pyEq domain (.str "kubernetes") then kubeRoute cmd o
  else if pyEq domain (.str "prometheus") then promRoute cmd o
  else if pyEq domain (.str "grafana") then grafRoute cmd o
  else if pyEq domain (.str "vmware") then esxiRoute cmd o
  else if pyEq domain (.str "network") then netRoute cmd o
  else ([], .ok Option.none)

/-- `route_infra_command(cmd)` (lines 135-627): the returned string, plus the
trace of attempted backend interactions. -/
def route_infra_command (cmd : PyDict) (o : Backend) : String × List Call :=
  match routeInner cmd o with
  | (tr, .ok (some s)) => (s, tr)
  | (tr, .ok Option.none) => ("Command not supported: " ++ pyStr (.dict cmd), tr)
  | (tr, .error e) => ("Error executing command: " ++ e, tr)

/-! ## Theorems for the router (C2, C4, C8, C9) -/

/-- `pyEq` on two string literals is string equality. -/
theorem pyEq_str_str (a b : String) : pyEq (.str a) (.str b) = (a == b) := rfl

/-- A backend where everything is reachable and succeeds. -/
def okBackend : Backend :=
  ⟨.ok 200, fun _ _ => .ok (200, .dict [("ok", .bool true)]), .ok (), [],
   fun _ _ => .dict [("status", .str "success")], .ok (),
   fun _ _ => .dict [("status", .str "success")], .ok (),
   fun _ _ => .dict [("status", .str "success")], fun _ => .ok "scan done"⟩

/-- A backend whose Kubernetes health probe raises. -/
def kubeDownBackend : Backend :=
  ⟨.error "boom", fun _ _ => .ok (200, .dict [("ok", .bool true)]), .ok (), [],
   fun _ _ => .dict [("status", .str "success")], .ok (),
   fun _ _ => .dict [("status", .str "success")], .ok (),
   fun _ _ => .dict [("status", .str "success")], fun _ => .ok "scan done"⟩

/-- C2 counterexample: a kubernetes command whose health probe throws is
answered with `"Error: Kubernetes MCP server not accessible: boom"` — an
exception raised inside a domain branch that is converted by an *inner*
handler to a string that does not begin `"Error executing command: "`. -/
theorem route_error_string_not_uniform :
    route_infra_command [("domain", .str "kubernetes"), ("action", .str "list")] kubeDownBackend
        = ("Error: Kubernetes MCP server not accessible: boom", [.kubeHealthCheck])
      ∧ strStartsWith "Error: Kubernetes MCP server not accessible: boom"
          "Error executing command: " = false :=
  ⟨rfl, rfl⟩

/-- C2 (amended): the router is total — for every Command Descriptor and
backend it returns a string, which is exactly one of: a branch\x27s returned
string, the `"Command not supported: "` fallback when no branch handles the
command, or `"Error executing command: " ++ e` for the exception `e` that
escaped the domain branches; and a kubernetes health-probe exception is
intercepted by an inner handler and answered with the non-uniform
`"Error: Kubernetes MCP server not accessible: "` string. -/
theorem route_infra_command_total (cmd : PyDict) (o : Backend) :
    ((∃ s, (routeInner cmd o).2 = .ok (some s) ∧ (route_infra_command cmd o).1 = s)
      ∨ ((routeInner cmd o).2 = .ok Option.none
          ∧ (route_infra_command cmd o).1 = "Command not supported: " ++ pyStr (.dict cmd))
      ∨ (∃ e, (routeInner cmd o).2 = .error e
          ∧ (route_infra_command cmd o).1 = "Error executing command: " ++ e))
    ∧ (∀ e, o.kubeHealth = .error e →
        dgetD cmd "domain" .none = .str "kubernetes" →
        (route_infra_command cmd o).1 = "Error: Kubernetes MCP server not accessible: " ++ e) := by
  constructor
  · rcases h : routeInner cmd o with ⟨tr, res⟩
    match res with
    | .ok (some s) =>
      exact .inl ⟨s, rfl, by simp only [route_infra_command, h]⟩
    | .ok Option.none =>
      exact .inr (.inl ⟨rfl, by simp only [route_infra_command, h]⟩)
    | .error e =>
      exact .inr (.inr ⟨e, rfl, by simp only [route_infra_command, h]⟩)
  · intro e he hd
    have hk : routeInner cmd o
        = ([.kubeHealthCheck],
           .ok (some ("Error: Kubernetes MCP server not accessible: " ++ e))) := by
      simp [routeInner, hd, pyEq_str_str, kubeRoute, he]
    simp only [route_infra_command, hk]

/-- Witness for `route_infra_command_total` at a concrete command and
backend: the health-probe exception text `"boom"` is surfaced through the
inner handler. -/
theorem route_infra_command_total_witness :
    (route_infra_command [("domain", .str "kubernetes"), ("action", .str "describe")]
        kubeDownBackend).1
      = "Error: Kubernetes MCP server not accessible: boom" :=
  (route_infra_command_total [("domain", .str "kubernetes"), ("action", .str "describe")]
    kubeDownBackend).2 "boom" rfl rfl

/-- C9 counterexample: a kubernetes `ping` with namespace `"prod"` forwards
the empty argument dict — the namespace differs from the default, yet the
forwarded parameter map has no `"namespace"` key, so the if-and-only-if
fails. -/
theorem kubernetes_namespace_not_iff :
    route_infra_command
        [("domain", .str "kubernetes"), ("action", .str "ping"), ("namespace", .str "prod")]
        okBackend
      = (dumps (.dict [("ok", .bool true)]), [.kubeHealthCheck, .kubePost "ping" []])
    ∧ dmem [] "namespace" = false
    ∧ pyEq (dgetD [("domain", PyObj.str "kubernetes"), ("action", PyObj.str "ping"),
          ("namespace", PyObj.str "prod")] "namespace" (.str "default"))
        (.str "default") = false :=
  ⟨rfl, rfl, rfl⟩

/-- C9 (amended): for the kubernetes actions that actually forward a
parameter map to the backend — `list` and `get`, via `kubectl_get` — the
forwarded map contains `"namespace"` exactly when the descriptor\x27s
namespace differs from `"default"`, and then it carries the descriptor\x27s
namespace value; the map is forwarded whether or not the post succeeds. -/
theorem kubernetes_namespace_forwarding (cmd : PyDict) (o : Backend)
    (hh : o.kubeHealth = .ok 200)
    (hd : dgetD cmd "domain" .none = .str "kubernetes")
    (ha : dgetD cmd "action" .none = .str "list" ∨ dgetD cmd "action" .none = .str "get") :
    (∃ res, route_infra_command cmd o
        = (res, [.kubeHealthCheck, .kubePost "kubectl_get" (kubeGetParams cmd)]))
    ∧ dmem (kubeGetParams cmd) "namespace"
        = !pyEq (dgetD cmd "namespace" (.str "default")) (.str "default")
    ∧ (pyEq (dgetD cmd "namespace" (.str "default")) (.str "default") = false →
        dlookup (kubeGetParams cmd) "namespace"
          = some (dgetD cmd "namespace" (.str "default"))) := by
  refine ⟨?_, ?_, ?_⟩
  · have hroute : routeInner cmd o = kubeRoute cmd o := by
      simp [routeInner, hd, pyEq_str_str]
    rcases hp : o.kubePost "kubectl_get" (kubeGetParams cmd) with e | ⟨sc, body⟩
    · refine ⟨"Error: Failed to connect to Kubernetes MCP server: " ++ e, ?_⟩
      have hk : kubeRoute cmd o
          = ([.kubeHealthCheck, .kubePost "kubectl_get" (kubeGetParams cmd)],
             .ok (some ("Error: Failed to connect to Kubernetes MCP server: " ++ e))) := by
        rcases ha with ha | ha <;> simp [kubeRoute, hh, ha, pyEq_str_str, hp]
      simp only [route_infra_command, hroute, hk]
    · refine ⟨if sc = 200 then dumps body
        else "Error: HTTP " ++ toString sc ++ " from Kubernetes MCP server", ?_⟩
      have hk : kubeRoute cmd o
          = ([.kubeHealthCheck, .kubePost "kubectl_get" (kubeGetParams cmd)],
             .ok (some (if sc = 200 then dumps body
               else "Error: HTTP " ++ toString sc ++ " from Kubernetes MCP server"))) := by
        rcases ha with ha | ha <;> simp [kubeRoute, hh, ha, pyEq_str_str, hp]
      simp only [route_infra_command, hroute, hk]
  · by_cases hns : pyEq (dgetD cmd "namespace" (.str "default")) (.str "default") = true
    · simp [kubeGetParams, hns, dmem, dlookup]
    · simp only [Bool.not_eq_true] at hns
      simp [kubeGetParams, hns, dmem, dlookup]
  · intro hns
    simp [kubeGetParams, hns, dlookup]

/-- Witness for `kubernetes_namespace_forwarding`: a `list` command with
namespace `"prod"` forwards `resourceType` and `namespace`. -/
theorem kubernetes_namespace_forwarding_witness :
    (∃ res, route_infra_command
        [("domain", .str "kubernetes"), ("action", .str "list"),
         ("resource", .str "pods"), ("namespace", .str "prod")] okBackend
      = (res, [.kubeHealthCheck, .kubePost "kubectl_get"
          (kubeGetParams [("domain", .str "kubernetes"), ("action", .str "list"),
            ("resource", .str "pods"), ("namespace", .str "prod")])]))
    ∧ dmem (kubeGetParams [("domain", .str "kubernetes"), ("action", .str "list"),
        ("resource", .str "pods"), ("namespace", .str "prod")]) "namespace" = true :=
  ⟨(kubernetes_namespace_forwarding
      [("domain", .str "kubernetes"), ("action", .str "list"),
       ("resource", .str "pods"), ("namespace", .str "prod")] okBackend rfl rfl (.inl rfl)).1,
   by
    have h := (kubernetes_namespace_forwarding
      [("domain", .str "kubernetes"), ("action", .str "list"),
       ("resource", .str "pods"), ("namespace", .str "prod")] okBackend rfl rfl (.inl rfl)).2.1
    rw [h]
    rfl⟩

/-- A backend whose ESXi client acquisition raises (failed probe of the
ESXi MCP server, mcp_esxi_client.py line 102). -/
def esxiDownBackend : Backend :=
  ⟨.ok 200, fun _ _ => .ok (200, .dict [("ok", .bool true)]), .ok (), [],
   fun _ _ => .dict [("status", .str "success")], .ok (),
   fun _ _ => .dict [("status", .str "success")], .error "ESXi MCP server not accessible",
   fun _ _ => .dict [("status", .str "success")], fun _ => .ok "scan done"⟩

/-- C8 counterexample: `get_esxi_mcp_client()` runs *before* the
capability-gap branch, and it probes the ESXi server; when that probe fails
the router answers `vmware get vm` with
`"Error executing command: ESXi MCP server not accessible"` instead of the
capability-gap message — and the backend probe was attempted. -/
theorem vmware_get_not_always_capability_gap :
    route_infra_command
        [("domain", .str "vmware"), ("action", .str "get"), ("resource", .str "vm")]
        esxiDownBackend
      = ("Error executing command: ESXi MCP server not accessible", [.esxiAcq]) := rfl

/-- C8 (amended): when the ESXi client acquisition succeeds, every vmware
command with action `get`, `status` or `info` on a VM resource is answered
with the capability-gap message enumerating the supported operations, and
the only backend interaction is the client acquisition itself — no
`call_method` is attempted for the command. -/
theorem vmware_get_capability_gap (cmd : PyDict) (o : Backend)
    (hacq : o.esxiAcquire = .ok ())
    (hd : dgetD cmd "domain" .none = .str "vmware")
    (ha : dgetD cmd "action" .none = .str "get" ∨ dgetD cmd "action" .none = .str "status"
        ∨ dgetD cmd "action" .none = .str "info")
    (hr : dgetD cmd "resource" .none = .str "vms" ∨ dgetD cmd "resource" .none = .str "vm") :
    route_infra_command cmd o = (vmwareCapGapMsg, [.esxiAcq]) := by
  have hroute : routeInner cmd o = esxiRoute cmd o := by
    simp [routeInner, hd, pyEq_str_str]
  have hk : esxiRoute cmd o = ([.esxiAcq], .ok (some vmwareCapGapMsg)) := by
    rcases ha with ha | ha | ha <;> rcases hr with hr | hr <;>
      simp [esxiRoute, hacq, ha, hr, pyEq_str_str]
  simp only [route_infra_command, hroute, hk]

/-- Witness for `vmware_get_capability_gap` at a concrete command. -/
theorem vmware_get_capability_gap_witness :
    route_infra_command
        [("domain", .str "vmware"), ("action", .str "get"), ("resource", .str "vm")]
        okBackend
      = (vmwareCapGapMsg, [.esxiAcq]) :=
  vmware_get_capability_gap
    [("domain", .str "vmware"), ("action", .str "get"), ("resource", .str "vm")]
    okBackend rfl rfl (.inl rfl) (.inr rfl)

/-- C4: grafana get-dashboard addressing. A purely alphanumeric name is used
as a UID and fetched directly; any other (string) name triggers the
two-step resolution — list all dashboards, select the first whose title
contains the name case-insensitively, fetch that one\x27s `uid` — and a name
matching no title is answered with the explicit not-found string, not an
exception. -/
theorem grafana_get_dashboard_addressing :
    (∀ (cmd : PyDict) (o : Backend) (ns : String),
      o.grafAcquire = .ok () →
      dgetD cmd "domain" .none = .str "grafana" →
      dgetD cmd "action" .none = .str "get" →
      (dgetD cmd "resource" .none = .str "dashboards"
        ∨ dgetD cmd "resource" .none = .str "dashboard") →
      dgetD cmd "name" .none = .str ns →
      uidMatch ns.data = true →
      is_server_error (o.grafExec "get_dashboard" [("uid", .str ns)]) = false →
      route_infra_command cmd o
        = (dumps (o.grafExec "get_dashboard" [("uid", .str ns)]),
           [.grafAcq, .grafCall "get_dashboard" [("uid", .str ns)]]))
    ∧ (∀ (cmd : PyDict) (o : Backend) (ns t : String) (items : List PyObj) (dd : PyDict),
      o.grafAcquire = .ok () →
      dgetD cmd "domain" .none = .str "grafana" →
      dgetD cmd "action" .none = .str "get" →
      (dgetD cmd "resource" .none = .str "dashboards"
        ∨ dgetD cmd "resource" .none = .str "dashboard") →
      dgetD cmd "name" .none = .str ns →
      uidMatch ns.data = false →
      is_server_error (o.grafExec "list_dashboards" []) = false →
      mcpText (o.grafExec "list_dashboards" []) = some (.str t) →
      loads t = some (.list items) →
      findDashboard ns items = .ok (some dd) →
      pyTruthy (.dict dd) = true →
      route_infra_command cmd o
        = (dumps (o.grafExec "get_dashboard" [("uid", dgetD dd "uid" .none)]),
           [.grafAcq, .grafCall "list_dashboards" [],
            .grafCall "get_dashboard" [("uid", dgetD dd "uid" .none)]]))
    ∧ (∀ (cmd : PyDict) (o : Backend) (ns t : String) (items : List PyObj),
      o.grafAcquire = .ok () →
      dgetD cmd "domain" .none = .str "grafana" →
      dgetD cmd "action" .none = .str "get" →
      (dgetD cmd "resource" .none = .str "dashboards"
        ∨ dgetD cmd "resource" .none = .str "dashboard") →
      dgetD cmd "name" .none = .str ns →
      uidMatch ns.data = false →
      is_server_error (o.grafExec "list_dashboards" []) = false →
      mcpText (o.grafExec "list_dashboards" []) = some (.str t) →
      loads t = some (.list items) →
      findDashboard ns items = .ok Option.none →
      route_infra_command cmd o
        = ("Error: No dashboard found with title containing \x27" ++ ns ++ "\x27",
           [.grafAcq, .grafCall "list_dashboards" []])) := by
  refine ⟨?_, ?_, ?_⟩
  · intro cmd o ns hacq hd ha hr hn hu hse
    have hroute : routeInner cmd o = grafRoute cmd o := by
      simp [routeInner, hd, pyEq_str_str]
    have hk : grafRoute cmd o
        = ([.grafAcq, .grafCall "get_dashboard" [("uid", .str ns)]],
           .ok (some (dumps (o.grafExec "get_dashboard" [("uid", .str ns)])))) := by
      rcases hr with hr | hr <;> simp [grafRoute, hacq, ha, hr, hn, hu, hse, pyEq_str_str]
    simp only [route_infra_command, hroute, hk]
  · intro cmd o ns t items dd hacq hd ha hr hn hu hsel hmt hld hfd htr
    have hroute : routeInner cmd o = grafRoute cmd o := by
      simp [routeInner, hd, pyEq_str_str]
    have hk : grafRoute cmd o
        = ([.grafAcq, .grafCall "list_dashboards" [],
            .grafCall "get_dashboard" [("uid", dgetD dd "uid" .none)]],
           .ok (some (dumps (o.grafExec "get_dashboard" [("uid", dgetD dd "uid" .none)])))) := by
      rcases hr with hr | hr <;>
        simp [grafRoute, hacq, ha, hr, hn, hu, hsel, hmt, hld, pyIter, hfd, htr, pyEq_str_str]
    simp only [route_infra_command, hroute, hk]
  · intro cmd o ns t items hacq hd ha hr hn hu hsel hmt hld hfd
    have hroute : routeInner cmd o = grafRoute cmd o := by
      simp [routeInner, hd, pyEq_str_str]
    have hk : grafRoute cmd o
        = ([.grafAcq, .grafCall "list_dashboards" []],
           .ok (some ("Error: No dashboard found with title containing \x27" ++ ns ++ "\x27"))) := by
      rcases hr with hr | hr <;>
        simp [grafRoute, hacq, ha, hr, hn, hu, hsel, hmt, hld, pyIter, hfd, pyEq_str_str]
    simp only [route_infra_command, hroute, hk]

/-- A backend whose grafana client lists exactly one dashboard,
`\x7btitle: "Node Exporter Full", uid: "abc123"\x7d`, in the MCP response
shape, and echoes the requested uid on `get_dashboard`. -/
def c4Backend : Backend :=
  ⟨.ok 200, fun _ _ => .ok (200, .dict [("ok", .bool true)]), .ok (), [],
   fun _ _ => .dict [("status", .str "success")], .ok (),
   (fun tool args =>
     if tool == "list_dashboards" then
       .dict [("result", .dict [("content", .list [.dict [("text",
         .str "[\x7b\"title\": \"Node Exporter Full\", \"uid\": \"abc123\"\x7d]")]])])]
     else .dict [("status", .str "success"), ("uid", dgetD args "uid" .none)]),
   .ok (), fun _ _ => .dict [("status", .str "success")], fun _ => .ok "scan done"⟩

/-- Witness for `grafana_get_dashboard_addressing`: the claim\x27s example —
with dashboard list `[\x7btitle: "Node Exporter Full", uid: "abc123"\x7d]`, a
get by name `"node exporter"` resolves to uid `"abc123"` and fetches it. -/
theorem grafana_get_dashboard_addressing_witness :
    route_infra_command
        [("domain", .str "grafana"), ("action", .str "get"),
         ("resource", .str "dashboard"), ("name", .str "node exporter")]
        c4Backend
      = (dumps (.dict [("status", .str "success"), ("uid", .str "abc123")]),
         [.grafAcq, .grafCall "list_dashboards" [],
          .grafCall "get_dashboard" [("uid", .str "abc123")]]) :=
  grafana_get_dashboard_addressing.2.1
    [("domain", .str "grafana"), ("action", .str "get"),
     ("resource", .str "dashboard"), ("name", .str "node exporter")]
    c4Backend "node exporter"
    "[\x7b\"title\": \"Node Exporter Full\", \"uid\": \"abc123\"\x7d]"
    [.dict [("title", .str "Node Exporter Full"), ("uid", .str "abc123")]]
    [("title", .str "Node Exporter Full"), ("uid", .str "abc123")]
    rfl rfl rfl (.inr rfl) rfl rfl rfl rfl rfl rfl rfl

/-- C4 counterexample: `re.match(r'^[a-zA-Z0-9]+$', name)` also accepts one
trailing newline, so the name `"abc\n"` — which does *not* consist solely of
alphanumeric characters — is treated as a UID and fetched directly, with no
dashboard listing and no two-step resolution. -/
theorem grafana_get_trailing_newline_uid :
    route_infra_command
        [("domain", .str "grafana"), ("action", .str "get"),
         ("resource", .str "dashboard"), ("name", .str "abc\n")]
        c4Backend
      = (dumps (.dict [("status", .str "success"), ("uid", .str "abc\n")]),
         [.grafAcq, .grafCall "get_dashboard" [("uid", .str "abc\n")]])
    ∧ "abc\n".data.all isAsciiAlnum = false :=
  ⟨rfl, rfl⟩
